import Mathlib

/-!
Verification of the PL/0 compiler and stack-machine interpreter.

This file gives a shallow embedding of the repository source:
  * the stack virtual machine (`src/interpreter.cpp`),
  * the symbol table and code buffer (`src/codegen.cpp`),
  * the recursive-descent parser with inline code generation
    (`src/parser_codegen.cpp`),
  * the number-classification fragment of the lexer (`Lexer::readNumber`),
  * the diagnostic renderer fragment that displays a source line with a
    caret (`DiagnosticEngine::report`).

Modelling conventions, used throughout:
  * C++ `int` values are modelled as unbounded `Int`; signed overflow is
    undefined behaviour in the source, so no wrap-around is imposed.
    Division and remainder use `Int.tdiv` / `Int.tmod`, which truncate
    toward zero exactly as C++ `/` and `%` do.
  * The VM data stack is a `std::vector<int>` of fixed size 10000 indexed
    without bounds checks; an out-of-range `stack[i] = v` is undefined
    behaviour that in fact stores the value.  We model the store as a total
    function `Int → Int` so that such writes are recorded and visible.
  * `std::cin >> x` is modelled by an explicit list of pending input values
    (a failed extraction writes 0, as C++ `operator>>` does on eof);
    `std::cout << x << "\n"` appends to an output list.  Debug printing and
    diagnostic text output have no effect on the modelled state and are
    dropped.
  * The uncaught C++ exception thrown by `std::stoi` on an out-of-range
    literal is modelled by an `exn` flag on the parser state: once set, every
    remaining parser action is skipped (each action is guarded), which is
    exactly the effect of an exception propagating out of `parse()`.
-/

namespace PL0

/-! ## Instructions (codegen.h) -/

/-- Opcodes, from `enum class OpCode` in `codegen.h`. -/
inductive OpCode where
  | LIT | OPR | LOD | STO | CAL | INT | JMP | JPC | RED | WRT
  deriving DecidableEq, Repr

/-- `struct Instruction { OpCode op; int level; int address; }`. -/
structure Instruction where
  op : OpCode
  level : Int
  address : Int
  deriving DecidableEq, Repr

/-! ## The virtual machine (interpreter.cpp, interpreter.h) -/

/-- `const int STACK_SIZE = 10000` from `interpreter.h`. -/
def STACK_SIZE : Int := 10000

/-- `const int RA_OFFSET = 0` from `interpreter.h`. -/
def RA_OFFSET : Int := 0

/-- `const int DL_OFFSET = 1` from `interpreter.h`. -/
def DL_OFFSET : Int := 1

/-- `const int SL_OFFSET = 2` from `interpreter.h`. -/
def SL_OFFSET : Int := 2

/-- The VM state: code store, data stack, the four registers `I P T B`,
the `running` flag, and the modelled I/O streams.  A runtime error message
printed to `cerr` is recorded in `runtimeError`. -/
structure VMState where
  code : List Instruction
  stack : Int → Int
  I : Instruction
  P : Int
  T : Int
  B : Int
  running : Bool
  runtimeError : Option String
  inputs : List Int
  output : List Int

/-- Pointwise update of the modelled stack store. -/
def upd (f : Int → Int) (i v : Int) : Int → Int :=
  fun j => if j = i then v else f j

/-- Helper for `Interpreter::base`: follow the static link `l` times. -/
def baseAux (stk : Int → Int) (b : Int) : Nat → Int
  | 0 => b
  | Nat.succ l => baseAux stk (stk (b + SL_OFFSET)) l

/-- `Interpreter::base(int level)`: start from register `B` and follow the
static-link slot (offset 2) while `level > 0`.  A non-positive level makes
the C++ loop body run zero times, which `Int.toNat` reproduces. -/
def base (s : VMState) (level : Int) : Int :=
  baseAux s.stack s.B level.toNat

/-- `Interpreter::executeLIT`: `T++; stack[T] = I.address`. -/
def executeLIT (s : VMState) : VMState :=
  { s with T := s.T + 1, stack := upd s.stack (s.T + 1) s.I.address }

/-- `Interpreter::executeOPR`: dispatch on the sub-operation in `I.address`.
Each numbered branch transcribes the corresponding `case` of the C++
switch; the final branch is the `default` case. -/
def executeOPR (s : VMState) : VMState :=
  if s.I.address = 0 then
    { s with T := s.B - 1, P := s.stack (s.B + RA_OFFSET), B := s.stack (s.B + DL_OFFSET) }
  else if s.I.address = 1 then
    { s with stack := upd s.stack s.T (-(s.stack s.T)) }
  else if s.I.address = 2 then
    { s with T := s.T - 1, stack := upd s.stack (s.T - 1) (s.stack (s.T - 1) + s.stack s.T) }
  else if s.I.address = 3 then
    { s with T := s.T - 1, stack := upd s.stack (s.T - 1) (s.stack (s.T - 1) - s.stack s.T) }
  else if s.I.address = 4 then
    { s with T := s.T - 1, stack := upd s.stack (s.T - 1) (s.stack (s.T - 1) * s.stack s.T) }
  else if s.I.address = 5 then
    if s.stack s.T ≠ 0 then
      { s with T := s.T - 1,
               stack := upd s.stack (s.T - 1) (Int.tdiv (s.stack (s.T - 1)) (s.stack s.T)) }
    else
      { s with T := s.T - 1, runtimeError := some "Division by zero", running := false }
  else if s.I.address = 6 then
    { s with stack := upd s.stack s.T (if Int.tmod (s.stack s.T) 2 = 1 then 1 else 0) }
  else if s.I.address = 8 then
    { s with T := s.T - 1,
             stack := upd s.stack (s.T - 1) (if s.stack (s.T - 1) = s.stack s.T then 1 else 0) }
  else if s.I.address = 9 then
    { s with T := s.T - 1,
             stack := upd s.stack (s.T - 1) (if s.stack (s.T - 1) ≠ s.stack s.T then 1 else 0) }
  else if s.I.address = 10 then
    { s with T := s.T - 1,
             stack := upd s.stack (s.T - 1) (if s.stack (s.T - 1) < s.stack s.T then 1 else 0) }
  else if s.I.address = 11 then
    { s with T := s.T - 1,
             stack := upd s.stack (s.T - 1) (if s.stack (s.T - 1) ≥ s.stack s.T then 1 else 0) }
  else if s.I.address = 12 then
    { s with T := s.T - 1,
             stack := upd s.stack (s.T - 1) (if s.stack (s.T - 1) > s.stack s.T then 1 else 0) }
  else if s.I.address = 13 then
    { s with T := s.T - 1,
             stack := upd s.stack (s.T - 1) (if s.stack (s.T - 1) ≤ s.stack s.T then 1 else 0) }
  else
    { s with runtimeError := some "Unknown OPR operation", running := false }

/-- `Interpreter::executeLOD`: `T++; stack[T] = stack[base(L) + a]`. -/
def executeLOD (s : VMState) : VMState :=
  let baseAddr := base s s.I.level
  { s with T := s.T + 1, stack := upd s.stack (s.T + 1) (s.stack (baseAddr + s.I.address)) }

/-- `Interpreter::executeSTO`: `stack[base(L) + a] = stack[T]; T--`. -/
def executeSTO (s : VMState) : VMState :=
  let baseAddr := base s s.I.level
  { s with T := s.T - 1, stack := upd s.stack (baseAddr + s.I.address) (s.stack s.T) }

/-- `Interpreter::executeCAL`: write the frame header `RA DL SL` at
`T+1 .. T+3`, then `B = T + 1; P = a`.  Register `P` was already advanced
past the `CAL`, so the stored return address is the next instruction. -/
def executeCAL (s : VMState) : VMState :=
  let stack1 := upd s.stack (s.T + 1) s.P
  let stack2 := upd stack1 (s.T + 2) s.B
  let stack3 := upd stack2 (s.T + 3) (base s s.I.level)
  { s with stack := stack3, B := s.T + 1, P := s.I.address }

/-- `Interpreter::executeINT`: `T += a`, then report "Stack overflow" when
`T >= STACK_SIZE`.  Note the check happens after the move and the
instruction writes no stack slot. -/
def executeINT (s : VMState) : VMState :=
  if s.T + s.I.address ≥ STACK_SIZE then
    { s with T := s.T + s.I.address, runtimeError := some "Stack overflow", running := false }
  else
    { s with T := s.T + s.I.address }

/-- `Interpreter::executeJMP`: `P = a`. -/
def executeJMP (s : VMState) : VMState :=
  { s with P := s.I.address }

/-- `Interpreter::executeJPC`: if `stack[T] == 0` then `P = a`; always pop. -/
def executeJPC (s : VMState) : VMState :=
  if s.stack s.T = 0 then
    { s with P := s.I.address, T := s.T - 1 }
  else
    { s with T := s.T - 1 }

/-- `Interpreter::executeRED`: read an integer into `stack[base(L) + a]`.
A failed extraction (exhausted input) writes 0, as `std::cin >> int` does. -/
def executeRED (s : VMState) : VMState :=
  let baseAddr := base s s.I.level
  match s.inputs with
  | v :: rest => { s with stack := upd s.stack (baseAddr + s.I.address) v, inputs := rest }
  | [] => { s with stack := upd s.stack (baseAddr + s.I.address) 0 }

/-- `Interpreter::executeWRT`: print `stack[T]` and a newline; `T--`. -/
def executeWRT (s : VMState) : VMState :=
  { s with output := s.output ++ [s.stack s.T], T := s.T - 1 }

/-- The instruction fetch of `Interpreter::step`: `code[P]` guarded by
`static_cast<size_t>(P) >= code.size()`, under which a negative `P` also
fails the fetch. -/
def fetch (code : List Instruction) (P : Int) : Option Instruction :=
  if P < 0 then none else code.get? P.toNat

/-- The `switch (I.op)` dispatch of `Interpreter::step`, acting on a state
whose instruction register already holds the fetched instruction. -/
def dispatch (s : VMState) : VMState :=
  match s.I.op with
  | OpCode.LIT => executeLIT s
  | OpCode.OPR => executeOPR s
  | OpCode.LOD => executeLOD s
  | OpCode.STO => executeSTO s
  | OpCode.CAL => executeCAL s
  | OpCode.INT => executeINT s
  | OpCode.JMP => executeJMP s
  | OpCode.JPC => executeJPC s
  | OpCode.RED => executeRED s
  | OpCode.WRT => executeWRT s

/-- `Interpreter::step`: fetch `I = code[P]`, advance `P`, dispatch on the
opcode.  A failed fetch clears `running` and leaves the rest of the state
alone. -/
def step (s : VMState) : VMState :=
  match fetch s.code s.P with
  | none => { s with running := false }
  | some i => dispatch { s with I := i, P := s.P + 1 }

/-- The loop guard of `Interpreter::run`:
`running && static_cast<size_t>(P) < code.size()`. -/
def loopCond (s : VMState) : Bool :=
  s.running && decide (0 ≤ s.P) && decide (s.P.toNat < s.code.length)

/-- The executed instruction was a `RET` that left `T` negative: the
condition `I.op == OpCode::OPR && I.address == 0 && T < 0` tested by
`Interpreter::run` right after each step. -/
def justRet (s : VMState) : Prop :=
  s.I.op = OpCode.OPR ∧ s.I.address = 0 ∧ s.T < 0

instance (s : VMState) : Decidable (justRet s) := by
  unfold justRet; infer_instance

/-- The end-of-program test inside the loop of `Interpreter::run`: after a
step, if the executed instruction was `OPR 0 0` and `T < 0`, clear
`running`. -/
def retCheck (s : VMState) : VMState :=
  if justRet s then
    { s with running := false }
  else s

/-- One iteration of the `while` loop of `Interpreter::run`. -/
def runIter (s : VMState) : VMState :=
  retCheck (step s)

/-- The `while` loop of `Interpreter::run`, with explicit fuel. -/
def runLoop : Nat → VMState → VMState
  | 0, s => s
  | Nat.succ n, s => if loopCond s then runLoop n (runIter s) else s

/-- The state set up by `Interpreter::loadCode` plus the register reset at
the top of `Interpreter::run`: `P = 0; T = -1; B = 0; running = true`, with
the stack zero-initialized by the constructor (`stack.resize(STACK_SIZE, 0)`). -/
def initState (code : List Instruction) (inputs : List Int) : VMState :=
  { code := code
    stack := fun _ => 0
    I := ⟨OpCode.LIT, 0, 0⟩
    P := 0
    T := -1
    B := 0
    running := true
    runtimeError := none
    inputs := inputs
    output := [] }

/-- The program counter no longer points into the code vector. -/
def outOfCode (s : VMState) : Prop :=
  ¬ (0 ≤ s.P ∧ s.P.toNat < s.code.length)

instance (s : VMState) : Decidable (outOfCode s) := by
  unfold outOfCode; infer_instance

/-! ## Claim C3: stack-overflow checking -/

/-- A program that moves `T` to 9999 with `INT 0 10000` (still in bounds, so
no overflow is reported) and then executes `LIT 0 7`. -/
def overflowCode : List Instruction := [⟨OpCode.INT, 0, 10000⟩, ⟨OpCode.LIT, 0, 7⟩]

/-! ## Tokens (lexer.h)

`Token` carries a type tag and the lexeme text.  The `line`, `column` and
`length` fields of the C++ struct feed only the diagnostic text, which is
modelled by the error tally alone, so they are omitted here. -/

/-- `enum class TokenType` from `lexer.h`. -/
inductive TokenType where
  | PROGRAM | CONST | VAR | PROCEDURE | BEGIN | END
  | IF | THEN | ELSE | WHILE | DO | CALL | READ | WRITE | ODD
  | IDENTIFIER | INTEGER
  | PLUS | MINUS | MULTIPLY | DIVIDE
  | ASSIGN
  | EQ | NEQ | LT | LEQ | GT | GEQ
  | LPAREN | RPAREN | COMMA | SEMICOLON
  | END_OF_FILE | ERROR
  deriving DecidableEq, Repr

/-- `struct Token`, reduced to the fields the parser semantics reads. -/
structure Token where
  type : TokenType
  value : String
  deriving DecidableEq, Repr

/-! ## Symbol table (codegen.h / codegen.cpp) -/

/-- `enum class SymbolType`. -/
inductive SymbolType where
  | CONST | VAR | PROCEDURE
  deriving DecidableEq, Repr

/-- `struct Symbol`. -/
structure Symbol where
  name : String
  type : SymbolType
  level : Int
  address : Int
  deriving DecidableEq, Repr

/-- `class SymbolTable`.  The C++ stores `scopes` and `addressStack` as
vectors indexed by level with the current scope last and a `currentLevel`
field maintained equal to `scopes.size() - 1`; here both stacks are lists
with the current (innermost) scope at the head, and the level is derived.
`enterScope`/`exitScope` always push/pop the two stacks together, so they
have equal length. -/
structure SymbolTable where
  scopes : List (List Symbol)
  addressStack : List Int
  deriving DecidableEq, Repr

/-- `getCurrentLevel()`: `scopes.size() - 1` in our derived form. -/
def SymbolTable.getCurrentLevel (st : SymbolTable) : Int :=
  (st.scopes.length : Int) - 1

/-- The constructor `SymbolTable()` runs `enterScope()` once: one empty
global scope with its address counter at 3. -/
def SymbolTable.initial : SymbolTable :=
  { scopes := [[]], addressStack := [3] }

/-- `SymbolTable::enterScope`: push an empty scope and a counter at 3. -/
def SymbolTable.enterScope (st : SymbolTable) : SymbolTable :=
  { scopes := [] :: st.scopes, addressStack := 3 :: st.addressStack }

/-- `SymbolTable::exitScope`: pop both stacks when `currentLevel >= 0`,
i.e. when a scope exists. -/
def SymbolTable.exitScope (st : SymbolTable) : SymbolTable :=
  match st.scopes, st.addressStack with
  | _ :: srest, _ :: arest => { scopes := srest, addressStack := arest }
  | _, _ => st

/-- `SymbolTable::addSymbol`: append a `Symbol` to the current scope; for a
`VAR` the payload is replaced by `getNextAddress()`, which post-increments
the current counter.  The C++ guard `0 <= currentLevel < scopes.size()`
corresponds to the two stacks being nonempty. -/
def SymbolTable.addSymbol (st : SymbolTable) (name : String) (ty : SymbolType)
    (value : Int) : SymbolTable :=
  match st.scopes, st.addressStack with
  | scope :: srest, addr :: arest =>
    if ty = SymbolType.VAR then
      { scopes := (scope ++ [⟨name, ty, st.getCurrentLevel, addr⟩]) :: srest,
        addressStack := (addr + 1) :: arest }
    else
      { scopes := (scope ++ [⟨name, ty, st.getCurrentLevel, value⟩]) :: srest,
        addressStack := addr :: arest }
  | _, _ => st

/-- Scan a scope in insertion order, as the C++ range-for does. -/
def findInScope (scope : List Symbol) (name : String) : Option Symbol :=
  scope.find? (fun sym => sym.name = name)

/-- Helper for `SymbolTable::lookup`: walk the scopes innermost first. -/
def lookupScopes : List (List Symbol) → String → Option Symbol
  | [], _ => none
  | scope :: rest, name =>
    match findInScope scope name with
    | some sym => some sym
    | none => lookupScopes rest name

/-- `SymbolTable::lookup`: from the current scope outward, first hit wins. -/
def SymbolTable.lookup (st : SymbolTable) (name : String) : Option Symbol :=
  lookupScopes st.scopes name

/-- `SymbolTable::lookupCurrent`: current scope only. -/
def SymbolTable.lookupCurrent (st : SymbolTable) (name : String) : Option Symbol :=
  match st.scopes with
  | [] => none
  | scope :: _ => findInScope scope name

/-- `SymbolTable::getCurrentAddress`: read the current counter (0 when no
scope exists, matching the C++ guard). -/
def SymbolTable.getCurrentAddress (st : SymbolTable) : Int :=
  match st.addressStack with
  | addr :: _ => addr
  | [] => 0

/-! ## Parser state (parser_codegen.h)

`ParserWithCodegen` owns the token vector, a cursor, the symbol table, the
code generator and the error flag.  The code generator (`CodeGenerator`)
holds the instruction vector; its `nextCodeAddress` counter always equals
`code.size()` because `emit` pushes and increments together, so it is
represented by the list length.  The `exn` flag models an uncaught
`std::stoi` exception in flight: each parser action is skipped once it is
set, which is how an escaping exception behaves. -/

structure PState where
  tokens : List Token
  position : Nat
  table : SymbolTable
  code : List Instruction
  hasErrorFlag : Bool
  exn : Bool
  deriving DecidableEq, Repr

/-- The fresh parser state built by the `ParserWithCodegen` constructor. -/
def initPState (tokens : List Token) : PState :=
  { tokens := tokens, position := 0, table := SymbolTable.initial, code := [],
    hasErrorFlag := false, exn := false }

/-- A stand-in for `tokens.back()` on an empty vector (undefined behaviour
in C++; the lexer always ends the vector with an END_OF_FILE token). -/
def eofToken : Token := ⟨TokenType.END_OF_FILE, ""⟩

/-- `ParserWithCodegen::currentToken`: the token at `position`, or
`tokens.back()` past the end. -/
def currentToken (s : PState) : Token :=
  match s.tokens.get? s.position with
  | some t => t
  | none => s.tokens.getLast?.getD eofToken

/-- `ParserWithCodegen::check`. -/
def check (s : PState) (ty : TokenType) : Bool :=
  decide ((currentToken s).type = ty)

/-- `ParserWithCodegen::advance`: move the cursor unless it already sits on
the last token. -/
def advanceP (s : PState) : PState :=
  if s.exn then s
  else if s.position < s.tokens.length - 1 then { s with position := s.position + 1 }
  else s

/-- `ParserWithCodegen::match`. -/
def matchTok (s : PState) (ty : TokenType) : Bool × PState :=
  if s.exn then (false, s)
  else if check s ty then (true, advanceP s) else (false, s)

/-- All the `reportError` / `reportErrorAt` / `reportExpected` overloads:
each sets `hasErrorFlag` and sends one error diagnostic; only the flag is
modelled. -/
def reportErrorP (s : PState) : PState :=
  if s.exn then s else { s with hasErrorFlag := true }

/-- `CodeGenerator::emit` through the parser: append the instruction and
return its index (`nextCodeAddress++`, which equals the old length). -/
def emit (s : PState) (op : OpCode) (level addr : Int) : Int × PState :=
  if s.exn then (0, s)
  else ((s.code.length : Int), { s with code := s.code ++ [⟨op, level, addr⟩] })

/-- `CodeGenerator::backpatch`: overwrite the address field of instruction
`codeIndex` when it is in range. -/
def backpatchP (s : PState) (codeIndex : Int) (addr : Int) : PState :=
  if s.exn then s
  else if 0 ≤ codeIndex ∧ codeIndex.toNat < s.code.length then
    match s.code.get? codeIndex.toNat with
    | some old => { s with code := s.code.set codeIndex.toNat ⟨old.op, old.level, addr⟩ }
    | none => s
  else s

/-- `CodeGenerator::getNextAddress`: the next instruction index. -/
def getNextAddressP (s : PState) : Int :=
  (s.code.length : Int)

/-- `symbolTable.addSymbol(...)` as a parser action. -/
def addSymbolP (s : PState) (name : String) (ty : SymbolType) (value : Int) : PState :=
  if s.exn then s else { s with table := s.table.addSymbol name ty value }

/-- `symbolTable.enterScope()` as a parser action. -/
def enterScopeP (s : PState) : PState :=
  if s.exn then s else { s with table := s.table.enterScope }

/-- `symbolTable.exitScope()` as a parser action. -/
def exitScopeP (s : PState) : PState :=
  if s.exn then s else { s with table := s.table.exitScope }

/-- ASCII digit test on a character code. -/
def isDigitChar (c : Char) : Bool :=
  48 ≤ c.toNat && c.toNat ≤ 57

/-- Read a decimal numeral; `none` as soon as a non-digit appears. -/
def digitsToNat : List Char → Nat → Option Nat
  | [], acc => some acc
  | c :: rest, acc =>
    if isDigitChar c then digitsToNat rest (acc * 10 + (c.toNat - 48)) else none

/-- `std::stoi` on a lexeme: defined exactly on digit strings whose value
fits a 32-bit `int`; `none` models the thrown exception (`out_of_range`
beyond `INT_MAX = 2147483647`, `invalid_argument` on a non-numeral).
Lexemes of `INTEGER` tokens are unsigned digit runs, so no sign handling
is needed. -/
def cppStoi (str : String) : Option Int :=
  match str.data with
  | [] => none
  | cs =>
    match digitsToNat cs 0 with
    | some v => if v ≤ 2147483647 then some ((v : Nat) : Int) else none
    | none => none

/-- `ParserWithCodegen::synchronize`: skip tokens until a semicolon (which
is consumed), a block or declaration boundary, or end of file. -/
def synchronize : Nat → PState → PState
  | 0, s => s
  | Nat.succ n, s =>
    if s.exn then s
    else if check s TokenType.END_OF_FILE then s
    else if check s TokenType.SEMICOLON then advanceP s
    else if check s TokenType.BEGIN || check s TokenType.END then s
    else if check s TokenType.CONST || check s TokenType.VAR ||
            check s TokenType.PROCEDURE then s
    else synchronize n (advanceP s)

/-- `ParserWithCodegen::expect`: advance on the expected token, otherwise
report and synchronize. -/
def expect (n : Nat) (s : PState) (ty : TokenType) : PState :=
  if s.exn then s
  else if check s ty then advanceP s
  else synchronize n (reportErrorP s)

/-- `ParserWithCodegen::expectSemicolon`: same shape as `expect` for `;`
with context-aware diagnostics (modelled by the flag alone). -/
def expectSemicolon (n : Nat) (s : PState) : PState :=
  if s.exn then s
  else if check s TokenType.SEMICOLON then advanceP s
  else synchronize n (reportErrorP s)

/-! ## Declaration parsers (parser_codegen.cpp) -/

/-- The body of the do/while loop of `parseCondecl`: one `<const>` item.
The returned flag is false when the C++ `break` fires.  When the `INTEGER`
lexeme does not convert, `std::stoi` throws: the `exn` flag is set and the
item (and everything after it) is abandoned. -/
def parseCondeclItem (n : Nat) (s : PState) : PState × Bool :=
  if s.exn then (s, false)
  else if check s TokenType.IDENTIFIER then
    let constName := (currentToken s).value
    let s1 := advanceP s
    let s2 := if check s1 TokenType.EQ then advanceP (reportErrorP s1)
              else expect n s1 TokenType.ASSIGN
    let negS :=
      if check s2 TokenType.MINUS then (true, advanceP s2)
      else if check s2 TokenType.PLUS then (false, advanceP s2)
      else (false, s2)
    let s3 := negS.2
    if check s3 TokenType.INTEGER then
      match cppStoi (currentToken s3).value with
      | none => ({ s3 with exn := true }, false)
      | some v =>
        let value := if negS.1 then -v else v
        let s4 := if (s3.table.lookupCurrent constName).isSome then reportErrorP s3
                  else addSymbolP s3 constName SymbolType.CONST value
        (advanceP s4, true)
    else (reportErrorP s3, true)
  else (reportErrorP s, false)

/-- The do/while loop of `parseCondecl`. -/
def parseCondeclLoop : Nat → PState → PState
  | 0, s => s
  | Nat.succ n, s =>
    let r := parseCondeclItem n s
    if r.2 then
      let m := matchTok r.1 TokenType.COMMA
      if m.1 then parseCondeclLoop n m.2 else m.2
    else r.1

/-- `ParserWithCodegen::parseCondecl`. -/
def parseCondecl (n : Nat) (s : PState) : PState :=
  if s.exn then s
  else
    let s1 := expect n s TokenType.CONST
    expectSemicolon n (parseCondeclLoop n s1)

/-- The body of the do/while loop of `parseVardecl`: one identifier. -/
def parseVardeclItem (s : PState) : PState × Bool :=
  if s.exn then (s, false)
  else if check s TokenType.IDENTIFIER then
    let varName := (currentToken s).value
    let s1 := if (s.table.lookupCurrent varName).isSome then reportErrorP s
              else addSymbolP s varName SymbolType.VAR 0
    (advanceP s1, true)
  else (reportErrorP s, false)

/-- The do/while loop of `parseVardecl`. -/
def parseVardeclLoop : Nat → PState → PState
  | 0, s => s
  | Nat.succ n, s =>
    let r := parseVardeclItem s
    if r.2 then
      let m := matchTok r.1 TokenType.COMMA
      if m.1 then parseVardeclLoop n m.2 else m.2
    else r.1

/-- `ParserWithCodegen::parseVardecl`. -/
def parseVardecl (n : Nat) (s : PState) : PState :=
  if s.exn then s
  else
    let s1 := expect n s TokenType.VAR
    expectSemicolon n (parseVardeclLoop n s1)

/-- The parameter do/while loop of `parseProc`: each identifier is added as
a `VAR` in the just-entered scope — with no redeclaration check. -/
def parseParams : Nat → PState → PState
  | 0, s => s
  | Nat.succ n, s =>
    if s.exn then s
    else
      let s1 := if check s TokenType.IDENTIFIER then
                  advanceP (addSymbolP s (currentToken s).value SymbolType.VAR 0)
                else s
      let m := matchTok s1 TokenType.COMMA
      if m.1 then parseParams n m.2 else m.2

/-- The read-list do/while loop of `parseStatement`, `read(id{,id})`:
resolve each identifier and emit `RED leveldiff addr` for variables. -/
def parseReadLoop : Nat → PState → PState
  | 0, s => s
  | Nat.succ n, s =>
    if s.exn then s
    else if check s TokenType.IDENTIFIER then
      let varName := (currentToken s).value
      let s1 :=
        match s.table.lookup varName with
        | none => reportErrorP s
        | some sym =>
          if sym.type = SymbolType.CONST then reportErrorP s
          else if sym.type = SymbolType.PROCEDURE then reportErrorP s
          else (emit s OpCode.RED (s.table.getCurrentLevel - sym.level) sym.address).2
      let s2 := advanceP s1
      let m := matchTok s2 TokenType.COMMA
      if m.1 then parseReadLoop n m.2 else m.2
    else reportErrorP s

/-! ## OPR sub-operation codes (`enum class OprType`, codegen.h) -/

def OprType.RET : Int := 0

def OprType.NEG : Int := 1

def OprType.ADD : Int := 2

def OprType.SUB : Int := 3

def OprType.MUL : Int := 4

def OprType.DIV : Int := 5

def OprType.ODD : Int := 6

def OprType.EQ : Int := 8

def OprType.NEQ : Int := 9

def OprType.LT : Int := 10

def OprType.GEQ : Int := 11

def OprType.GT : Int := 12

def OprType.LEQ : Int := 13

/-- The procedure-name declaration step of `parseProc`: on an identifier,
declare the procedure in the enclosing scope with the next instruction
index as its entry address, then advance. -/
def parseProcName (s : PState) : PState :=
  if check s TokenType.IDENTIFIER then
    advanceP (if (s.table.lookupCurrent (currentToken s).value).isSome then reportErrorP s
      else addSymbolP s (currentToken s).value SymbolType.PROCEDURE (getNextAddressP s))
  else reportErrorP s

/-- The procedure-resolution step of the `call` branch: resolve the callee
and emit `CAL leveldiff entry` at once — before any argument is parsed —
then advance past the name. -/
def parseCallTarget (s : PState) : PState :=
  if check s TokenType.IDENTIFIER then
    advanceP
      (match s.table.lookup (currentToken s).value with
       | none => reportErrorP s
       | some sym =>
         if sym.type ≠ SymbolType.PROCEDURE then reportErrorP s
         else (emit s OpCode.CAL (s.table.getCurrentLevel - sym.level) sym.address).2)
  else reportErrorP s

/-- The identifier case of `parseFactor`: constant → `LIT value`,
variable → `LOD leveldiff addr`, procedure or undeclared → error. -/
def parseFactorIdent (s : PState) : PState :=
  advanceP
    (match s.table.lookup (currentToken s).value with
     | none => reportErrorP s
     | some sym =>
       if sym.type = SymbolType.CONST then (emit s OpCode.LIT 0 sym.address).2
       else if sym.type = SymbolType.VAR then
         (emit s OpCode.LOD (s.table.getCurrentLevel - sym.level) sym.address).2
       else reportErrorP s)

/-- The integer-literal case of `parseFactor`: `std::stoi` (which may
throw) then `LIT 0 value`. -/
def parseFactorInt (s : PState) : PState :=
  match cppStoi (currentToken s).value with
  | none => { s with exn := true }
  | some v => advanceP (emit s OpCode.LIT 0 v).2

/-- The relational switch of `parseLexp`: emit the `OPR` for the operator
token (`=` 8, `<>` 9, `<` 10, `<=` 13, `>` 12, `>=` 11); the `default`
case emits nothing. -/
def emitRelOpr (relOp : TokenType) (s2 : PState) : PState :=
  match relOp with
  | TokenType.EQ => (emit s2 OpCode.OPR 0 OprType.EQ).2
  | TokenType.NEQ => (emit s2 OpCode.OPR 0 OprType.NEQ).2
  | TokenType.LT => (emit s2 OpCode.OPR 0 OprType.LT).2
  | TokenType.LEQ => (emit s2 OpCode.OPR 0 OprType.LEQ).2
  | TokenType.GT => (emit s2 OpCode.OPR 0 OprType.GT).2
  | TokenType.GEQ => (emit s2 OpCode.OPR 0 OprType.GEQ).2
  | _ => s2

/-! ## The mutually recursive parser (parser_codegen.cpp)

Each function consumes one unit of fuel per call; with fuel 0 the state is
returned unchanged.  Any fuel larger than the recursion depth of the C++
run computes the same result, since the C++ parser's recursion terminates
on finite token vectors. -/

mutual

/-- `ParserWithCodegen::parseBlock`:
emit `JMP 0 0`, parse the declarations, backpatch the jump to the next
address, emit `INT 0 dataSize` with the scope's current counter, parse the
body.  (`savedAddress` in the C++ is read and never used.) -/
def parseBlock : Nat → PState → PState
  | 0, s => s
  | Nat.succ n, s =>
    if s.exn then s
    else
      let j := emit s OpCode.JMP 0 0
      let s1 := j.2
      let s2 := if check s1 TokenType.CONST then parseCondecl n s1 else s1
      let s3 := if check s2 TokenType.VAR then parseVardecl n s2 else s2
      let s4 := parseProcLoop n s3
      let s5 := backpatchP s4 j.1 (getNextAddressP s4)
      let s6 := (emit s5 OpCode.INT 0 s5.table.getCurrentAddress).2
      parseBody n s6

/-- The `while (check(PROCEDURE))` loop of `parseBlock`. -/
def parseProcLoop : Nat → PState → PState
  | 0, s => s
  | Nat.succ n, s =>
    if s.exn then s
    else if check s TokenType.PROCEDURE then parseProcLoop n (parseProc n s)
    else s

/-- `ParserWithCodegen::parseProc`: declare the procedure (entry = next
instruction index) in the enclosing scope, enter a new scope, declare the
parameters, parse the block, emit `OPR 0 0`, exit the scope. -/
def parseProc : Nat → PState → PState
  | 0, s => s
  | Nat.succ n, s =>
    if s.exn then s
    else
      let s1 := expect n s TokenType.PROCEDURE
      let s2 := parseProcName s1
      let s3 := expect n s2 TokenType.LPAREN
      let s4 := enterScopeP s3
      let s5 := if check s4 TokenType.IDENTIFIER then parseParams n s4 else s4
      let s6 := expect n s5 TokenType.RPAREN
      let s7 := expectSemicolon n s6
      let s8 := parseBlock n s7
      let s9 := (emit s8 OpCode.OPR 0 OprType.RET).2
      let s10 := exitScopeP s9
      expectSemicolon n s10

/-- `ParserWithCodegen::parseBody`: `begin <statement> {; <statement>} end`
with a tolerated trailing semicolon and a missing-separator diagnostic. -/
def parseBody : Nat → PState → PState
  | 0, s => s
  | Nat.succ n, s =>
    if s.exn then s
    else
      let s1 := expect n s TokenType.BEGIN
      let s2 := parseStatement n s1
      let s3 := parseBodyLoop n s2
      let s4 := if check s3 TokenType.END then s3 else reportErrorP s3
      expect n s4 TokenType.END

/-- The `while (match(SEMICOLON))` loop of `parseBody`. -/
def parseBodyLoop : Nat → PState → PState
  | 0, s => s
  | Nat.succ n, s =>
    if s.exn then s
    else
      let m := matchTok s TokenType.SEMICOLON
      if m.1 then
        if check m.2 TokenType.END then m.2
        else parseBodyLoop n (parseStatement n m.2)
      else m.2

/-- The recovery path shared by the three error cases of the assignment
statement (undeclared, constant, procedure): report, skip the name, and if
an assignment operator follows, still parse the right-hand side. -/
def parseAssignRecover : Nat → PState → PState
  | 0, s => s
  | Nat.succ n, s =>
    let sa := advanceP (reportErrorP s)
    if check sa TokenType.ASSIGN || check sa TokenType.EQ then parseExp n (advanceP sa)
    else sa

/-- The identifier branch of `parseStatement`: an assignment `id := exp`,
with recovery when `id` is undeclared, a constant, or a procedure. -/
def parseAssignStmt : Nat → PState → PState
  | 0, s => s
  | Nat.succ n, s =>
    if s.exn then s
    else
      let varName := (currentToken s).value
      match s.table.lookup varName with
      | none => parseAssignRecover n s
      | some sym =>
        if sym.type = SymbolType.CONST then parseAssignRecover n s
        else if sym.type = SymbolType.PROCEDURE then parseAssignRecover n s
        else
          let sa := advanceP s
          let sb := if check sa TokenType.EQ then advanceP (reportErrorP sa)
                    else expect n sa TokenType.ASSIGN
          let sc := parseExp n sb
          (emit sc OpCode.STO (sc.table.getCurrentLevel - sym.level) sym.address).2

/-- The `if` branch of `parseStatement`, entered after `if` is consumed. -/
def parseIfStmt : Nat → PState → PState
  | 0, s => s
  | Nat.succ n, s =>
    let s1 := parseLexp n s
    let s2 := expect n s1 TokenType.THEN
    let j := emit s2 OpCode.JPC 0 0
    let s4 := parseStatement n j.2
    let mElse := matchTok s4 TokenType.ELSE
    if mElse.1 then
      let j2 := emit mElse.2 OpCode.JMP 0 0
      let s7 := backpatchP j2.2 j.1 (getNextAddressP j2.2)
      let s8 := parseStatement n s7
      backpatchP s8 j2.1 (getNextAddressP s8)
    else backpatchP mElse.2 j.1 (getNextAddressP mElse.2)

/-- The `while` branch of `parseStatement`, entered after `while` is
consumed. -/
def parseWhileStmt : Nat → PState → PState
  | 0, s => s
  | Nat.succ n, s =>
    let loopAddr := getNextAddressP s
    let s1 := parseLexp n s
    let s2 := expect n s1 TokenType.DO
    let j := emit s2 OpCode.JPC 0 0
    let s4 := parseStatement n j.2
    let s5 := (emit s4 OpCode.JMP 0 loopAddr).2
    backpatchP s5 j.1 (getNextAddressP s5)

/-- The `call` branch of `parseStatement`, entered after `call` is
consumed: resolve the procedure and emit `CAL` immediately; only then
parse the parenthesised argument list. -/
def parseCallStmt : Nat → PState → PState
  | 0, s => s
  | Nat.succ n, s =>
    let s1 := parseCallTarget s
    let s2 := expect n s1 TokenType.LPAREN
    let s3 := if check s2 TokenType.RPAREN then s2 else parseCallArgs n s2
    expect n s3 TokenType.RPAREN

/-- The `read` branch of `parseStatement`, after `read` is consumed. -/
def parseReadStmt : Nat → PState → PState
  | 0, s => s
  | Nat.succ n, s =>
    let s1 := expect n s TokenType.LPAREN
    let s2 := parseReadLoop n s1
    expect n s2 TokenType.RPAREN

/-- The `write` branch of `parseStatement`, after `write` is consumed. -/
def parseWriteStmt : Nat → PState → PState
  | 0, s => s
  | Nat.succ n, s =>
    let s1 := expect n s TokenType.LPAREN
    let s2 := parseWriteLoop n s1
    expect n s2 TokenType.RPAREN

/-- `ParserWithCodegen::parseStatement`: dispatch to the assignment, `if`,
`while`, `call`, nested `begin` body, `read` or `write` branch — each
transcribed by its own function above — or accept an empty statement. -/
def parseStatement : Nat → PState → PState
  | 0, s => s
  | Nat.succ n, s =>
    if s.exn then s
    else if check s TokenType.IDENTIFIER then parseAssignStmt n s
    else
      let mIf := matchTok s TokenType.IF
      if mIf.1 then parseIfStmt n mIf.2
      else
        let mWhile := matchTok s TokenType.WHILE
        if mWhile.1 then parseWhileStmt n mWhile.2
        else
          let mCall := matchTok s TokenType.CALL
          if mCall.1 then parseCallStmt n mCall.2
          else if check s TokenType.BEGIN then
            parseBody n s
          else
            let mRead := matchTok s TokenType.READ
            if mRead.1 then parseReadStmt n mRead.2
            else
              let mWrite := matchTok s TokenType.WRITE
              if mWrite.1 then parseWriteStmt n mWrite.2
              else
                if check s TokenType.SEMICOLON || check s TokenType.END ||
                   check s TokenType.ELSE || check s TokenType.END_OF_FILE then s
                else reportErrorP s

/-- The argument do/while loop of the `call` branch: each argument is
parsed as an expression (its code is emitted) purely for error checking. -/
def parseCallArgs : Nat → PState → PState
  | 0, s => s
  | Nat.succ n, s =>
    if s.exn then s
    else
      let s1 := parseExp n s
      let m := matchTok s1 TokenType.COMMA
      if m.1 then parseCallArgs n m.2 else m.2

/-- The write-list do/while loop: `parseExp` then `WRT 0 0` per item. -/
def parseWriteLoop : Nat → PState → PState
  | 0, s => s
  | Nat.succ n, s =>
    if s.exn then s
    else
      let s1 := (emit (parseExp n s) OpCode.WRT 0 0).2
      let m := matchTok s1 TokenType.COMMA
      if m.1 then parseWriteLoop n m.2 else m.2

/-- `ParserWithCodegen::parseLexp`: `odd <exp>` emits `OPR 0 6`; otherwise
`<exp> relop <exp>` emits the relational OPR; the switch default emits
nothing. -/
def parseLexp : Nat → PState → PState
  | 0, s => s
  | Nat.succ n, s =>
    if s.exn then s
    else
      let mOdd := matchTok s TokenType.ODD
      if mOdd.1 then (emit (parseExp n mOdd.2) OpCode.OPR 0 OprType.ODD).2
      else
        let s1 := parseExp n s
        let relOp := (currentToken s1).type
        if check s1 TokenType.EQ || check s1 TokenType.NEQ ||
           check s1 TokenType.LT || check s1 TokenType.LEQ ||
           check s1 TokenType.GT || check s1 TokenType.GEQ then
          emitRelOpr relOp (parseExp n (advanceP s1))
        else reportErrorP s1

/-- `ParserWithCodegen::parseExp`: optional sign, first term (a leading
minus emits `OPR 0 1` after it), then the additive loop. -/
def parseExp : Nat → PState → PState
  | 0, s => s
  | Nat.succ n, s =>
    if s.exn then s
    else
      let mPlus := matchTok s TokenType.PLUS
      if mPlus.1 then parseExpLoop n (parseTerm n mPlus.2)
      else
        let mMinus := matchTok s TokenType.MINUS
        if mMinus.1 then
          parseExpLoop n ((emit (parseTerm n mMinus.2) OpCode.OPR 0 OprType.NEG).2)
        else parseExpLoop n (parseTerm n s)

/-- The `{(+|-) <term>}` loop of `parseExp`. -/
def parseExpLoop : Nat → PState → PState
  | 0, s => s
  | Nat.succ n, s =>
    if s.exn then s
    else if check s TokenType.PLUS || check s TokenType.MINUS then
      let isPlus := check s TokenType.PLUS
      let s1 := parseTerm n (advanceP s)
      let s2 := if isPlus then (emit s1 OpCode.OPR 0 OprType.ADD).2
                else (emit s1 OpCode.OPR 0 OprType.SUB).2
      parseExpLoop n s2
    else s

/-- `ParserWithCodegen::parseTerm`. -/
def parseTerm : Nat → PState → PState
  | 0, s => s
  | Nat.succ n, s =>
    if s.exn then s
    else parseTermLoop n (parseFactor n s)

/-- The `{(*|/) <factor>}` loop of `parseTerm`. -/
def parseTermLoop : Nat → PState → PState
  | 0, s => s
  | Nat.succ n, s =>
    if s.exn then s
    else if check s TokenType.MULTIPLY || check s TokenType.DIVIDE then
      let isMul := check s TokenType.MULTIPLY
      let s1 := parseFactor n (advanceP s)
      let s2 := if isMul then (emit s1 OpCode.OPR 0 OprType.MUL).2
                else (emit s1 OpCode.OPR 0 OprType.DIV).2
      parseTermLoop n s2
    else s

/-- `ParserWithCodegen::parseFactor`: identifier (constant → `LIT value`,
variable → `LOD leveldiff addr`, procedure → error), integer literal
(through `std::stoi`, which may throw), or parenthesised expression. -/
def parseFactor : Nat → PState → PState
  | 0, s => s
  | Nat.succ n, s =>
    if s.exn then s
    else if check s TokenType.IDENTIFIER then parseFactorIdent s
    else if check s TokenType.INTEGER then parseFactorInt s
    else
      let mL := matchTok s TokenType.LPAREN
      if mL.1 then expect n (parseExp n mL.2) TokenType.RPAREN
      else reportErrorP s

end

/-- `ParserWithCodegen::parseProgram`: `program <id>; <block>`, then
`OPR 0 0` and a trailing-token diagnostic. -/
def parseProgram (n : Nat) (s : PState) : PState :=
  if s.exn then s
  else
    let s1 := expect n s TokenType.PROGRAM
    let s2 := if check s1 TokenType.IDENTIFIER then advanceP s1 else reportErrorP s1
    let s3 := expect n s2 TokenType.SEMICOLON
    let s4 := parseBlock n s3
    let s5 := (emit s4 OpCode.OPR 0 OprType.RET).2
    if check s5 TokenType.END_OF_FILE then s5 else reportErrorP s5

/-- `ParserWithCodegen::parse` on a freshly constructed parser: the final
state, whose `hasErrorFlag` negation would be the C++ return value.  A set
`exn` flag means `parse()` did not return: a `std::stoi` exception
escaped. -/
def parse (n : Nat) (tokens : List Token) : PState :=
  parseProgram n (initPState tokens)

/-! ## The number-overflow classification of `Lexer::readNumber`
(src/unnamed/part_000, lines 540-564)

After the digits of an integer literal are scanned into `value`, the lexer
calls `std::stoll`: a value above `INT_MAX` only produces a *warning*
("integer literal is too large") and the `INTEGER` token is emitted anyway;
only a failed `stoll` (beyond `long long`) is an error.  The result triple
is (warning issued, error flag set, returned token). -/
def readNumberCheck (value : String) : Bool × Bool × Token :=
  match digitsToNat value.data 0 with
  | some v =>
    if v ≤ 9223372036854775807 then
      if 2147483647 < v then (true, false, ⟨TokenType.INTEGER, value⟩)
      else (false, false, ⟨TokenType.INTEGER, value⟩)
    else (false, true, ⟨TokenType.INTEGER, value⟩)
  | none => (false, true, ⟨TokenType.INTEGER, value⟩)

/-! ## Concrete token lists used as test inputs -/

/-- Shorthand for building test tokens. -/
def tk (ty : TokenType) (v : String) : Token := ⟨ty, v⟩

/-- Tokens of `program p; procedure q(x); begin end; begin call q(1) end`. -/
def callArgToks : List Token :=
  [tk TokenType.PROGRAM "program", tk TokenType.IDENTIFIER "p", tk TokenType.SEMICOLON ";",
   tk TokenType.PROCEDURE "procedure", tk TokenType.IDENTIFIER "q", tk TokenType.LPAREN "(",
   tk TokenType.IDENTIFIER "x", tk TokenType.RPAREN ")", tk TokenType.SEMICOLON ";",
   tk TokenType.BEGIN "begin", tk TokenType.END "end", tk TokenType.SEMICOLON ";",
   tk TokenType.BEGIN "begin", tk TokenType.CALL "call", tk TokenType.IDENTIFIER "q",
   tk TokenType.LPAREN "(", tk TokenType.INTEGER "1", tk TokenType.RPAREN ")",
   tk TokenType.END "end", tk TokenType.END_OF_FILE ""]

/-- Tokens of `program p; var x; begin x := 2147483648 end` — the lexer
emits the over-range literal as an `INTEGER` token with only a warning. -/
def bigLitToks : List Token :=
  [tk TokenType.PROGRAM "program", tk TokenType.IDENTIFIER "p", tk TokenType.SEMICOLON ";",
   tk TokenType.VAR "var", tk TokenType.IDENTIFIER "x", tk TokenType.SEMICOLON ";",
   tk TokenType.BEGIN "begin", tk TokenType.IDENTIFIER "x", tk TokenType.ASSIGN ":=",
   tk TokenType.INTEGER "2147483648", tk TokenType.END "end", tk TokenType.END_OF_FILE ""]

/-- Tokens of `program p; procedure q(a, a); begin end; begin end` — a
procedure with a duplicated parameter name. -/
def dupParamToks : List Token :=
  [tk TokenType.PROGRAM "program", tk TokenType.IDENTIFIER "p", tk TokenType.SEMICOLON ";",
   tk TokenType.PROCEDURE "procedure", tk TokenType.IDENTIFIER "q", tk TokenType.LPAREN "(",
   tk TokenType.IDENTIFIER "a", tk TokenType.COMMA ",", tk TokenType.IDENTIFIER "a",
   tk TokenType.RPAREN ")", tk TokenType.SEMICOLON ";", tk TokenType.BEGIN "begin",
   tk TokenType.END "end", tk TokenType.SEMICOLON ";", tk TokenType.BEGIN "begin",
   tk TokenType.END "end", tk TokenType.END_OF_FILE ""]

/-! ## Claim C7: symbol-table invariants -/

/-- The claim's per-scope name-uniqueness property. -/
def scopeNamesUnique (scope : List Symbol) : Prop :=
  (scope.map (fun sym => sym.name)).Nodup

instance (scope : List Symbol) : Decidable (scopeNamesUnique scope) := by
  unfold scopeNamesUnique; infer_instance

/-- The addresses of the `VAR` symbols of a scope, in declaration order. -/
def varAddresses (scope : List Symbol) : List Int :=
  (scope.filter (fun sym => decide (sym.type = SymbolType.VAR))).map (fun sym => sym.address)

/-- The claim's density property for one scope together with its address
counter: the `VAR` addresses are `3, 4, …` in declaration order — dense,
starting at 3 and strictly increasing — and the counter is the next free
offset. -/
def ScopeOk (scope : List Symbol) (counter : Int) : Prop :=
  counter = 3 + ((varAddresses scope).length : Int) ∧
  varAddresses scope = (List.range (varAddresses scope).length).map (fun k => ((3 + k : Nat) : Int))

instance (scope : List Symbol) (counter : Int) : Decidable (ScopeOk scope counter) := by
  unfold ScopeOk; infer_instance

/-- The symbol-table invariant: the two stacks run in parallel and every
scope is paired with its counter through `ScopeOk`. -/
def TableInv (st : SymbolTable) : Prop :=
  st.scopes.length = st.addressStack.length ∧
  ∀ pr ∈ st.scopes.zip st.addressStack, ScopeOk pr.1 pr.2

instance (st : SymbolTable) : Decidable (TableInv st) := by
  unfold TableInv; infer_instance

/-- Code-store extension: a parser step never shortens the instruction
vector and never modifies an instruction that existed when it started
(every `backpatch` in the source targets an index the very same function
obtained from its own `emit`). -/
def Ext (s t : PState) : Prop :=
  s.code.length ≤ t.code.length ∧ ∀ k, k < s.code.length → t.code.get? k = s.code.get? k

/-- The combined invariant carried through the whole parser:
code extension; when no exception is pending at the end, none was pending
at the start and the scope/counter stacks have their original heights
(scope entry/exit is balanced); and the symbol-table invariant is
preserved. -/
def Good (s t : PState) : Prop :=
  Ext s t ∧
  (t.exn = false → s.exn = false ∧
    t.table.scopes.length = s.table.scopes.length ∧
    t.table.addressStack.length = s.table.addressStack.length) ∧
  (TableInv s.table → TableInv t.table)

/-- The parser state reached, while parsing
`program p; procedure q(a, a); begin end; begin end`, inside `parseProc`
immediately after the parameter list has been processed: the sequence of
actions below is exactly the prefix of the parse — `parseProgram` consumes
`program p ;`, `parseBlock` emits the `JMP`, and `parseProc` declares `q`,
enters the new scope and runs the parameter loop. -/
def dupParamMidState : PState :=
  let sP1 := expect 30 (initPState dupParamToks) TokenType.PROGRAM
  let sP2 := advanceP sP1
  let sP3 := expect 30 sP2 TokenType.SEMICOLON
  let s1 := (emit sP3 OpCode.JMP 0 0).2
  let stA := expect 30 s1 TokenType.PROCEDURE
  let stB := advanceP (addSymbolP stA (currentToken stA).value SymbolType.PROCEDURE
    (getNextAddressP stA))
  let stC := expect 30 stB TokenType.LPAREN
  let stD := enterScopeP stC
  parseParams 30 stD

/-! ## The diagnostic renderer fragment of `DiagnosticEngine::report`
(src/diagnostics.cpp, lines 172-203) -/

/-- The source-line rendering loop: each character is printed as itself,
except a tab, printed as four spaces. -/
def renderSourceLine : List Char → List Char
  | [] => []
  | c :: rest => (if c = Char.ofNat 9 then
      [Char.ofNat 32, Char.ofNat 32, Char.ofNat 32, Char.ofNat 32] else [c]) ++
    renderSourceLine rest

/-- The caret-position loop: advance four columns per tab, one otherwise,
over the first `k` characters (`k = column − 1`), clamped at the line
length as the C++ loop bound `i < column-1 && i < size` does. -/
def visualColumnAux : List Char → Nat → Nat
  | _, 0 => 0
  | [], Nat.succ _ => 0
  | c :: rest, Nat.succ k =>
    (if c = Char.ofNat 9 then 4 else 1) + visualColumnAux rest k

/-- The caret row printed under the rendered source line:
`visualColumn` spaces, a caret, then `length − 1` tildes. -/
def caretRow (visualColumn : Nat) (length : Int) : List Char :=
  List.replicate visualColumn (Char.ofNat 32) ++ [Char.ofNat 94] ++
    List.replicate (length - 1).toNat (Char.ofNat 126)

/-! ## A small-step transition relation for the VM run loop

One constructor per opcode, mirroring the dispatch of `Interpreter::step`
inside the loop of `Interpreter::run` (including the `RET` termination
test, `retCheck`).  `VMStep s t` holds exactly when the loop, live at `s`,
performs one iteration ending at `t`. -/

inductive VMStep : VMState → VMState → Prop where
  | lit : ∀ s i, loopCond s = true → fetch s.code s.P = some i → i.op = OpCode.LIT →
      VMStep s (retCheck (executeLIT { s with I := i, P := s.P + 1 }))
  | opr : ∀ s i, loopCond s = true → fetch s.code s.P = some i → i.op = OpCode.OPR →
      VMStep s (retCheck (executeOPR { s with I := i, P := s.P + 1 }))
  | lod : ∀ s i, loopCond s = true → fetch s.code s.P = some i → i.op = OpCode.LOD →
      VMStep s (retCheck (executeLOD { s with I := i, P := s.P + 1 }))
  | sto : ∀ s i, loopCond s = true → fetch s.code s.P = some i → i.op = OpCode.STO →
      VMStep s (retCheck (executeSTO { s with I := i, P := s.P + 1 }))
  | cal : ∀ s i, loopCond s = true → fetch s.code s.P = some i → i.op = OpCode.CAL →
      VMStep s (retCheck (executeCAL { s with I := i, P := s.P + 1 }))
  | int : ∀ s i, loopCond s = true → fetch s.code s.P = some i → i.op = OpCode.INT →
      VMStep s (retCheck (executeINT { s with I := i, P := s.P + 1 }))
  | jmp : ∀ s i, loopCond s = true → fetch s.code s.P = some i → i.op = OpCode.JMP →
      VMStep s (retCheck (executeJMP { s with I := i, P := s.P + 1 }))
  | jpc : ∀ s i, loopCond s = true → fetch s.code s.P = some i → i.op = OpCode.JPC →
      VMStep s (retCheck (executeJPC { s with I := i, P := s.P + 1 }))
  | red : ∀ s i, loopCond s = true → fetch s.code s.P = some i → i.op = OpCode.RED →
      VMStep s (retCheck (executeRED { s with I := i, P := s.P + 1 }))
  | wrt : ∀ s i, loopCond s = true → fetch s.code s.P = some i → i.op = OpCode.WRT →
      VMStep s (retCheck (executeWRT { s with I := i, P := s.P + 1 }))

/-- Token list for the source text `program p ; begin end`. -/
def emptyProgToks : List Token :=
  [tk TokenType.PROGRAM "program", tk TokenType.IDENTIFIER "p",
   tk TokenType.SEMICOLON ";", tk TokenType.BEGIN "begin",
   tk TokenType.END "end", tk TokenType.END_OF_FILE ""]

/-- A parser state sitting on `q ( 1 )` with a procedure `q` in scope:
the state in which the `call` branch of `parseStatement` runs its body. -/
def c1State : PState :=
  { tokens := [tk TokenType.IDENTIFIER "q", tk TokenType.LPAREN "(",
      tk TokenType.INTEGER "1", tk TokenType.RPAREN ")",
      tk TokenType.SEMICOLON ";", tk TokenType.END_OF_FILE ""],
    position := 0,
    table := { scopes := [[⟨"q", SymbolType.PROCEDURE, 0, 1⟩]], addressStack := [3] },
    code := [], hasErrorFlag := false, exn := false }

/-- The sub-operation code the relational switch of `parseLexp` assigns to
each relational operator token (and `none` for any other token). -/
def relopCode : TokenType → Option Int
  | TokenType.EQ => some OprType.EQ
  | TokenType.NEQ => some OprType.NEQ
  | TokenType.LT => some OprType.LT
  | TokenType.LEQ => some OprType.LEQ
  | TokenType.GT => some OprType.GT
  | TokenType.GEQ => some OprType.GEQ
  | _ => none

/-- The comparison the spec assigns to each relational sub-operation code:
left operand against right operand. -/
def relopHolds (c x y : Int) : Bool :=
  if c = 8 then decide (x = y)
  else if c = 9 then decide (x ≠ y)
  else if c = 10 then decide (x < y)
  else if c = 13 then decide (x ≤ y)
  else if c = 12 then decide (x > y)
  else if c = 11 then decide (x ≥ y)
  else false

/-- Tokens of the condition `1 < 2`. -/
def c6Toks : List Token :=
  [tk TokenType.INTEGER "1", tk TokenType.LT "<", tk TokenType.INTEGER "2",
   tk TokenType.END_OF_FILE ""]

/-- The declaration phase in the middle of `parseBlock`, between the
initial `JMP` and its backpatch: constants, variables, then the nested
procedure loop (verbatim from the body of `parseBlock`). -/
def blockDecls (n : Nat) (s1 : PState) : PState :=
  let s2 := if check s1 TokenType.CONST then parseCondecl n s1 else s1
  let s3 := if check s2 TokenType.VAR then parseVardecl n s2 else s2
  parseProcLoop n s3

/-- The prefix of `parseProgram` before the top-level block:
`program`, the program name, `;` (verbatim from `parseProgram`). -/
def programPrefix (n : Nat) (toks : List Token) : PState :=
  expect n
    (if check (expect n (initPState toks) TokenType.PROGRAM) TokenType.IDENTIFIER then
       advanceP (expect n (initPState toks) TokenType.PROGRAM)
     else reportErrorP (expect n (initPState toks) TokenType.PROGRAM))
    TokenType.SEMICOLON

/-- Tokens of `program p ; var x ; begin x := 1 end`. -/
def c5Toks : List Token :=
  [tk TokenType.PROGRAM "program", tk TokenType.IDENTIFIER "p",
   tk TokenType.SEMICOLON ";", tk TokenType.VAR "var",
   tk TokenType.IDENTIFIER "x", tk TokenType.SEMICOLON ";",
   tk TokenType.BEGIN "begin", tk TokenType.IDENTIFIER "x",
   tk TokenType.ASSIGN ":=", tk TokenType.INTEGER "1",
   tk TokenType.END "end", tk TokenType.END_OF_FILE ""]

/-! ## Theorems -/

/-! ## Basic lemmas about the VM loop -/

theorem loopCond_iff (s : VMState) :
    loopCond s = true ↔ s.running = true ∧ 0 ≤ s.P ∧ s.P.toNat < s.code.length := by
  simp [loopCond, and_assoc]

theorem runLoop_stopped (n : Nat) (s : VMState) (h : loopCond s = false) :
    runLoop n s = s := by
  cases n with
  | zero => rfl
  | succ n => simp [runLoop, h]

theorem fetch_some (s : VMState) (h : loopCond s = true) :
    ∃ i, fetch s.code s.P = some i := by
  obtain ⟨-, h1, h2⟩ := (loopCond_iff s).mp h
  unfold fetch
  rw [if_neg (by omega)]
  exact ⟨_, List.get?_eq_get h2⟩

theorem retCheck_runtimeError (s : VMState) : (retCheck s).runtimeError = s.runtimeError := by
  unfold retCheck; split <;> rfl

theorem retCheck_justRet (s : VMState) : justRet (retCheck s) ↔ justRet s := by
  unfold retCheck justRet; split <;> simp

theorem retCheck_eq_of_not (s : VMState) (h : ¬ justRet s) : retCheck s = s := by
  unfold retCheck; rw [if_neg h]

theorem retCheck_code (s : VMState) : (retCheck s).code = s.code := by
  unfold retCheck; split <;> rfl

theorem retCheck_P (s : VMState) : (retCheck s).P = s.P := by
  unfold retCheck; split <;> rfl

/-! Branch equations for `executeOPR`, one per `case` of the C++ switch. -/

theorem executeOPR_ret (s : VMState) (h : s.I.address = 0) :
    executeOPR s =
      { s with T := s.B - 1, P := s.stack (s.B + RA_OFFSET), B := s.stack (s.B + DL_OFFSET) } := by
  simp [executeOPR, h]

theorem executeOPR_neg (s : VMState) (h : s.I.address = 1) :
    executeOPR s = { s with stack := upd s.stack s.T (-(s.stack s.T)) } := by
  simp [executeOPR, h]

theorem executeOPR_add (s : VMState) (h : s.I.address = 2) :
    executeOPR s =
      { s with T := s.T - 1,
               stack := upd s.stack (s.T - 1) (s.stack (s.T - 1) + s.stack s.T) } := by
  simp [executeOPR, h]

theorem executeOPR_sub (s : VMState) (h : s.I.address = 3) :
    executeOPR s =
      { s with T := s.T - 1,
               stack := upd s.stack (s.T - 1) (s.stack (s.T - 1) - s.stack s.T) } := by
  simp [executeOPR, h]

theorem executeOPR_mul (s : VMState) (h : s.I.address = 4) :
    executeOPR s =
      { s with T := s.T - 1,
               stack := upd s.stack (s.T - 1) (s.stack (s.T - 1) * s.stack s.T) } := by
  simp [executeOPR, h]

theorem executeOPR_div (s : VMState) (h : s.I.address = 5) (hz : s.stack s.T ≠ 0) :
    executeOPR s =
      { s with T := s.T - 1,
               stack := upd s.stack (s.T - 1) (Int.tdiv (s.stack (s.T - 1)) (s.stack s.T)) } := by
  simp [executeOPR, h, hz]

theorem executeOPR_divZero (s : VMState) (h : s.I.address = 5) (hz : s.stack s.T = 0) :
    executeOPR s =
      { s with T := s.T - 1, runtimeError := some "Division by zero", running := false } := by
  simp [executeOPR, h, hz]

theorem executeOPR_odd (s : VMState) (h : s.I.address = 6) :
    executeOPR s =
      { s with stack := upd s.stack s.T (if Int.tmod (s.stack s.T) 2 = 1 then 1 else 0) } := by
  simp [executeOPR, h]

theorem executeOPR_eq (s : VMState) (h : s.I.address = 8) :
    executeOPR s =
      { s with T := s.T - 1,
               stack := upd s.stack (s.T - 1) (if s.stack (s.T - 1) = s.stack s.T then 1 else 0) } := by
  simp [executeOPR, h]

theorem executeOPR_neq (s : VMState) (h : s.I.address = 9) :
    executeOPR s =
      { s with T := s.T - 1,
               stack := upd s.stack (s.T - 1) (if s.stack (s.T - 1) ≠ s.stack s.T then 1 else 0) } := by
  simp [executeOPR, h]

theorem executeOPR_lt (s : VMState) (h : s.I.address = 10) :
    executeOPR s =
      { s with T := s.T - 1,
               stack := upd s.stack (s.T - 1) (if s.stack (s.T - 1) < s.stack s.T then 1 else 0) } := by
  simp [executeOPR, h]

theorem executeOPR_geq (s : VMState) (h : s.I.address = 11) :
    executeOPR s =
      { s with T := s.T - 1,
               stack := upd s.stack (s.T - 1) (if s.stack (s.T - 1) ≥ s.stack s.T then 1 else 0) } := by
  simp [executeOPR, h]

theorem executeOPR_gt (s : VMState) (h : s.I.address = 12) :
    executeOPR s =
      { s with T := s.T - 1,
               stack := upd s.stack (s.T - 1) (if s.stack (s.T - 1) > s.stack s.T then 1 else 0) } := by
  simp [executeOPR, h]

theorem executeOPR_leq (s : VMState) (h : s.I.address = 13) :
    executeOPR s =
      { s with T := s.T - 1,
               stack := upd s.stack (s.T - 1) (if s.stack (s.T - 1) ≤ s.stack s.T then 1 else 0) } := by
  simp [executeOPR, h]

theorem executeOPR_unknown (s : VMState) (h0 : ¬ s.I.address = 0) (h1 : ¬ s.I.address = 1)
    (h2 : ¬ s.I.address = 2) (h3 : ¬ s.I.address = 3) (h4 : ¬ s.I.address = 4)
    (h5 : ¬ s.I.address = 5) (h6 : ¬ s.I.address = 6) (h8 : ¬ s.I.address = 8)
    (h9 : ¬ s.I.address = 9) (h10 : ¬ s.I.address = 10) (h11 : ¬ s.I.address = 11)
    (h12 : ¬ s.I.address = 12) (h13 : ¬ s.I.address = 13) :
    executeOPR s = { s with runtimeError := some "Unknown OPR operation", running := false } := by
  simp [executeOPR, h0, h1, h2, h3, h4, h5, h6, h8, h9, h10, h11, h12, h13]

theorem executeOPR_running (s : VMState) (hr : s.running = true)
    (he : (executeOPR s).runtimeError = none) : (executeOPR s).running = true := by
  by_cases h0 : s.I.address = 0
  · rw [executeOPR_ret s h0]; exact hr
  by_cases h1 : s.I.address = 1
  · rw [executeOPR_neg s h1]; exact hr
  by_cases h2 : s.I.address = 2
  · rw [executeOPR_add s h2]; exact hr
  by_cases h3 : s.I.address = 3
  · rw [executeOPR_sub s h3]; exact hr
  by_cases h4 : s.I.address = 4
  · rw [executeOPR_mul s h4]; exact hr
  by_cases h5 : s.I.address = 5
  · by_cases hz : s.stack s.T = 0
    · rw [executeOPR_divZero s h5 hz] at he
      exact Option.noConfusion he
    · rw [executeOPR_div s h5 hz]; exact hr
  by_cases h6 : s.I.address = 6
  · rw [executeOPR_odd s h6]; exact hr
  by_cases h8 : s.I.address = 8
  · rw [executeOPR_eq s h8]; exact hr
  by_cases h9 : s.I.address = 9
  · rw [executeOPR_neq s h9]; exact hr
  by_cases h10 : s.I.address = 10
  · rw [executeOPR_lt s h10]; exact hr
  by_cases h11 : s.I.address = 11
  · rw [executeOPR_geq s h11]; exact hr
  by_cases h12 : s.I.address = 12
  · rw [executeOPR_gt s h12]; exact hr
  by_cases h13 : s.I.address = 13
  · rw [executeOPR_leq s h13]; exact hr
  rw [executeOPR_unknown s h0 h1 h2 h3 h4 h5 h6 h8 h9 h10 h11 h12 h13] at he
  exact Option.noConfusion he

theorem executeINT_over (s : VMState) (h : s.T + s.I.address ≥ STACK_SIZE) :
    executeINT s =
      { s with T := s.T + s.I.address,
               runtimeError := some "Stack overflow", running := false } := by
  simp [executeINT, h]

theorem executeINT_ok (s : VMState) (h : ¬ s.T + s.I.address ≥ STACK_SIZE) :
    executeINT s = { s with T := s.T + s.I.address } := by
  simp [executeINT, h]

theorem executeINT_running (s : VMState) (hr : s.running = true)
    (he : (executeINT s).runtimeError = none) : (executeINT s).running = true := by
  by_cases h : s.T + s.I.address ≥ STACK_SIZE
  · rw [executeINT_over s h] at he
    exact Option.noConfusion he
  · rw [executeINT_ok s h]; exact hr

theorem executeRED_running (s : VMState) : (executeRED s).running = s.running := by
  unfold executeRED
  cases s.inputs <;> rfl

theorem step_eq_dispatch (s : VMState) (i : Instruction) (hf : fetch s.code s.P = some i) :
    step s = dispatch { s with I := i, P := s.P + 1 } := by
  unfold step
  rw [hf]

theorem dispatch_LIT (s : VMState) (h : s.I.op = OpCode.LIT) : dispatch s = executeLIT s := by
  unfold dispatch; rw [h]

theorem dispatch_OPR (s : VMState) (h : s.I.op = OpCode.OPR) : dispatch s = executeOPR s := by
  unfold dispatch; rw [h]

theorem dispatch_LOD (s : VMState) (h : s.I.op = OpCode.LOD) : dispatch s = executeLOD s := by
  unfold dispatch; rw [h]

theorem dispatch_STO (s : VMState) (h : s.I.op = OpCode.STO) : dispatch s = executeSTO s := by
  unfold dispatch; rw [h]

theorem dispatch_CAL (s : VMState) (h : s.I.op = OpCode.CAL) : dispatch s = executeCAL s := by
  unfold dispatch; rw [h]

theorem dispatch_INT (s : VMState) (h : s.I.op = OpCode.INT) : dispatch s = executeINT s := by
  unfold dispatch; rw [h]

theorem dispatch_JMP (s : VMState) (h : s.I.op = OpCode.JMP) : dispatch s = executeJMP s := by
  unfold dispatch; rw [h]

theorem dispatch_JPC (s : VMState) (h : s.I.op = OpCode.JPC) : dispatch s = executeJPC s := by
  unfold dispatch; rw [h]

theorem dispatch_RED (s : VMState) (h : s.I.op = OpCode.RED) : dispatch s = executeRED s := by
  unfold dispatch; rw [h]

theorem dispatch_WRT (s : VMState) (h : s.I.op = OpCode.WRT) : dispatch s = executeWRT s := by
  unfold dispatch; rw [h]

/-- If a step from a running state with a successful fetch produced no
runtime-error message, the `running` flag is still set afterwards. -/
theorem step_running (s : VMState) (i : Instruction) (hr : s.running = true)
    (hf : fetch s.code s.P = some i) (he : (step s).runtimeError = none) :
    (step s).running = true := by
  rw [step_eq_dispatch s i hf] at he ⊢
  obtain ⟨op, lv, ad⟩ := i
  cases op
  case LIT => simpa [dispatch, executeLIT] using hr
  case OPR =>
    simp only [dispatch] at he ⊢
    exact executeOPR_running _ hr he
  case LOD => simpa [dispatch, executeLOD] using hr
  case STO => simpa [dispatch, executeSTO] using hr
  case CAL => simpa [dispatch, executeCAL] using hr
  case INT =>
    simp only [dispatch] at he ⊢
    exact executeINT_running _ hr he
  case JMP => simpa [dispatch, executeJMP] using hr
  case JPC =>
    simp only [dispatch]
    unfold executeJPC
    split_ifs <;> simpa using hr
  case RED =>
    simp only [dispatch]
    rw [executeRED_running]
    exact hr
  case WRT => simpa [dispatch, executeWRT] using hr

/-- One loop iteration from a live state: if it ends the loop without a
runtime error, then either the executed instruction was a `RET` leaving
`T < 0`, or the program counter left the code vector. -/
theorem runIter_halt (s : VMState) (hl : loopCond s = true)
    (he : (runIter s).runtimeError = none) (hstop : loopCond (runIter s) = false) :
    justRet (runIter s) ∨ outOfCode (runIter s) := by
  obtain ⟨i, hf⟩ := fetch_some s hl
  have hr : s.running = true := ((loopCond_iff s).mp hl).1
  have he2 : (step s).runtimeError = none := by
    have h := retCheck_runtimeError (step s)
    unfold runIter at he
    rw [h] at he
    exact he
  have hrun : (step s).running = true := step_running s i hr hf he2
  by_cases hj : justRet (step s)
  · left
    unfold runIter
    exact (retCheck_justRet (step s)).mpr hj
  · have heq : runIter s = step s := by
      unfold runIter
      exact retCheck_eq_of_not _ hj
    rw [heq] at hstop ⊢
    right
    unfold outOfCode
    intro hbound
    have : loopCond (step s) = true := (loopCond_iff _).mpr ⟨hrun, hbound⟩
    rw [this] at hstop
    exact absurd hstop (by simp)

/-- In an error-free run, the loop of `Interpreter::run` exits only through
the `RET`-with-`T < 0` test or because `P` left the code vector. -/
theorem runLoop_halt : ∀ (n : Nat) (s0 : VMState), loopCond s0 = true →
    loopCond (runLoop n s0) = false → (runLoop n s0).runtimeError = none →
    justRet (runLoop n s0) ∨ outOfCode (runLoop n s0)
  | 0, s0, h1, h2, _ => absurd h2 (by simp [runLoop, h1])
  | Nat.succ n, s0, h1, h2, h3 => by
    have hrl : runLoop (Nat.succ n) s0 = runLoop n (runIter s0) := by
      simp [runLoop, h1]
    rw [hrl] at h2 h3 ⊢
    by_cases hc : loopCond (runIter s0) = true
    · exact runLoop_halt n (runIter s0) hc h2 h3
    · have hc2 : loopCond (runIter s0) = false := by
        cases h : loopCond (runIter s0)
        · rfl
        · exact absurd h hc
      rw [runLoop_stopped n _ hc2] at h2 h3 ⊢
      exact runIter_halt s0 h1 h3 hc2

/-! ## Claim C10: the ODD operation under truncated remainder -/

theorem tmod_two_ne_one_of_neg (t : Int) (h : t < 0) : Int.tmod t 2 ≠ 1 := by
  cases t with
  | ofNat m =>
    simp only [Int.ofNat_eq_coe] at h
    omega
  | negSucc m =>
    have e : (Int.negSucc m).tmod 2 = -(((m + 1) % 2 : Nat) : Int) := rfl
    rw [e]
    omega

/-- Claim C10: executing `OPR 0 6` (ODD) replaces the top of stack `t` by 1
exactly when `t % 2 == 1` under C++ truncated remainder and by 0 otherwise;
consequently every negative `t`, odd or not, yields 0. -/
theorem claimC10_odd_truncated (s : VMState) (i : Instruction)
    (hf : fetch s.code s.P = some i) (hop : i.op = OpCode.OPR) (ha : i.address = 6) :
    ((step s).stack s.T = (if Int.tmod (s.stack s.T) 2 = 1 then 1 else 0) ∧
     (step s).T = s.T) ∧
    (∀ t : Int, t < 0 → (if Int.tmod t 2 = 1 then (1 : Int) else 0) = 0) := by
  constructor
  · rw [step_eq_dispatch s i hf]
    rw [dispatch_OPR _ hop]
    rw [executeOPR_odd _ ha]
    constructor
    · simp [upd]
    · rfl
  · intro t ht
    rw [if_neg (tmod_two_ne_one_of_neg t ht)]

/-- Witness for C10 at a concrete machine state: a single `OPR 0 6`
instruction about to execute on the zero-initialized stack. -/
theorem claimC10_odd_truncated_witness :
    ((step (initState [⟨OpCode.OPR, 0, 6⟩] [])).stack (initState [⟨OpCode.OPR, 0, 6⟩] []).T =
        (if Int.tmod ((initState [⟨OpCode.OPR, 0, 6⟩] []).stack
            (initState [⟨OpCode.OPR, 0, 6⟩] []).T) 2 = 1 then 1 else 0) ∧
      (step (initState [⟨OpCode.OPR, 0, 6⟩] [])).T = (initState [⟨OpCode.OPR, 0, 6⟩] []).T) ∧
    (∀ t : Int, t < 0 → (if Int.tmod t 2 = 1 then (1 : Int) else 0) = 0) :=
  claimC10_odd_truncated (initState [⟨OpCode.OPR, 0, 6⟩] []) ⟨OpCode.OPR, 0, 6⟩ rfl rfl rfl

/-- Counterexample to claim C3 as stated: running `overflowCode` grows the
stack past the 10000-slot capacity via `LIT`, yet the VM reports no error,
keeps `running` set, and the write to slot 10000 — at capacity — happens
(the C++ writes out of bounds).  So `LIT` growth past capacity neither
halts with "Stack overflow" nor avoids the write. -/
theorem claimC3_counterexample :
    (runLoop 5 (initState overflowCode [])).runtimeError = none ∧
    (runLoop 5 (initState overflowCode [])).running = true ∧
    (runLoop 5 (initState overflowCode [])).T = STACK_SIZE ∧
    (runLoop 5 (initState overflowCode [])).stack STACK_SIZE = 7 := by
  refine ⟨rfl, rfl, rfl, rfl⟩

/-- Claim C3 amended: only `INT` performs the capacity check — after
`T += a`, if `T ≥ STACK_SIZE` the VM halts with "Stack overflow", and `INT`
writes no stack slot; `LIT`, `LOD` and the three-word frame header written
by `CAL` store unconditionally, with no capacity check, leaving the error
and running flags untouched — an overflow through them writes at or beyond
the capacity without halting. -/
theorem claimC3_amended (s : VMState) (i : Instruction) (hf : fetch s.code s.P = some i) :
    (i.op = OpCode.INT → STACK_SIZE ≤ s.T + i.address →
      (step s).runtimeError = some "Stack overflow" ∧ (step s).running = false ∧
      (step s).stack = s.stack ∧ (step s).T = s.T + i.address) ∧
    (i.op = OpCode.LIT →
      (step s).stack (s.T + 1) = i.address ∧ (step s).T = s.T + 1 ∧
      (step s).runtimeError = s.runtimeError ∧ (step s).running = s.running) ∧
    (i.op = OpCode.LOD →
      (step s).stack (s.T + 1) = s.stack (baseAux s.stack s.B i.level.toNat + i.address) ∧
      (step s).T = s.T + 1 ∧
      (step s).runtimeError = s.runtimeError ∧ (step s).running = s.running) ∧
    (i.op = OpCode.CAL →
      (step s).stack (s.T + 1) = s.P + 1 ∧
      (step s).stack (s.T + 2) = s.B ∧
      (step s).stack (s.T + 3) = baseAux s.stack s.B i.level.toNat ∧
      (step s).T = s.T ∧ (step s).B = s.T + 1 ∧ (step s).P = i.address ∧
      (step s).runtimeError = s.runtimeError ∧ (step s).running = s.running) := by
  rw [step_eq_dispatch s i hf]
  refine ⟨?_, ?_, ?_, ?_⟩
  · intro hop hover
    rw [dispatch_INT _ hop]
    rw [executeINT_over _ (by simpa using hover)]
    exact ⟨rfl, rfl, rfl, rfl⟩
  · intro hop
    rw [dispatch_LIT _ hop]
    unfold executeLIT
    refine ⟨?_, rfl, rfl, rfl⟩
    simp [upd]
  · intro hop
    rw [dispatch_LOD _ hop]
    unfold executeLOD
    dsimp only
    refine ⟨?_, rfl, rfl, rfl⟩
    simp [upd, base]
  · intro hop
    rw [dispatch_CAL _ hop]
    unfold executeCAL
    dsimp only
    refine ⟨?_, ?_, ?_, rfl, rfl, rfl, rfl, rfl⟩
    · simp only [upd]
      rw [if_neg (by omega), if_neg (by omega)]
      simp
    · simp only [upd]
      rw [if_neg (by omega)]
      simp
    · simp only [upd]
      simp [base]

/-- Witness for the amended C3 at concrete machine states: an `INT 0 10001`
from the initial state moves `T` to 10000 and halts with "Stack overflow"
without writing; a `LIT 0 7`, a `LOD 0 5` and a `CAL 1 7` store
unconditionally, leaving the error and running flags untouched. -/
theorem claimC3_amended_witness :
    ((step (initState [⟨OpCode.INT, 0, 10001⟩] [])).runtimeError = some "Stack overflow" ∧
     (step (initState [⟨OpCode.INT, 0, 10001⟩] [])).running = false ∧
     (step (initState [⟨OpCode.INT, 0, 10001⟩] [])).stack = (initState [⟨OpCode.INT, 0, 10001⟩] []).stack ∧
     (step (initState [⟨OpCode.INT, 0, 10001⟩] [])).T = (initState [⟨OpCode.INT, 0, 10001⟩] []).T + 10001) ∧
    ((step (initState [⟨OpCode.LIT, 0, 7⟩] [])).stack ((initState [⟨OpCode.LIT, 0, 7⟩] []).T + 1) = 7 ∧
     (step (initState [⟨OpCode.LIT, 0, 7⟩] [])).T = (initState [⟨OpCode.LIT, 0, 7⟩] []).T + 1 ∧
     (step (initState [⟨OpCode.LIT, 0, 7⟩] [])).runtimeError = (initState [⟨OpCode.LIT, 0, 7⟩] []).runtimeError ∧
     (step (initState [⟨OpCode.LIT, 0, 7⟩] [])).running = (initState [⟨OpCode.LIT, 0, 7⟩] []).running) ∧
    ((step (initState [⟨OpCode.LOD, 0, 5⟩] [])).stack ((initState [⟨OpCode.LOD, 0, 5⟩] []).T + 1) =
       (initState [⟨OpCode.LOD, 0, 5⟩] []).stack
         (baseAux (initState [⟨OpCode.LOD, 0, 5⟩] []).stack
           (initState [⟨OpCode.LOD, 0, 5⟩] []).B (Int.toNat 0) + 5) ∧
     (step (initState [⟨OpCode.LOD, 0, 5⟩] [])).T = (initState [⟨OpCode.LOD, 0, 5⟩] []).T + 1 ∧
     (step (initState [⟨OpCode.LOD, 0, 5⟩] [])).runtimeError = (initState [⟨OpCode.LOD, 0, 5⟩] []).runtimeError ∧
     (step (initState [⟨OpCode.LOD, 0, 5⟩] [])).running = (initState [⟨OpCode.LOD, 0, 5⟩] []).running) ∧
    ((step (initState [⟨OpCode.CAL, 1, 7⟩] [])).stack ((initState [⟨OpCode.CAL, 1, 7⟩] []).T + 1) =
       (initState [⟨OpCode.CAL, 1, 7⟩] []).P + 1 ∧
     (step (initState [⟨OpCode.CAL, 1, 7⟩] [])).stack ((initState [⟨OpCode.CAL, 1, 7⟩] []).T + 2) =
       (initState [⟨OpCode.CAL, 1, 7⟩] []).B ∧
     (step (initState [⟨OpCode.CAL, 1, 7⟩] [])).stack ((initState [⟨OpCode.CAL, 1, 7⟩] []).T + 3) =
       baseAux (initState [⟨OpCode.CAL, 1, 7⟩] []).stack
         (initState [⟨OpCode.CAL, 1, 7⟩] []).B (Int.toNat 1) ∧
     (step (initState [⟨OpCode.CAL, 1, 7⟩] [])).T = (initState [⟨OpCode.CAL, 1, 7⟩] []).T ∧
     (step (initState [⟨OpCode.CAL, 1, 7⟩] [])).B = (initState [⟨OpCode.CAL, 1, 7⟩] []).T + 1 ∧
     (step (initState [⟨OpCode.CAL, 1, 7⟩] [])).P = 7 ∧
     (step (initState [⟨OpCode.CAL, 1, 7⟩] [])).runtimeError = (initState [⟨OpCode.CAL, 1, 7⟩] []).runtimeError ∧
     (step (initState [⟨OpCode.CAL, 1, 7⟩] [])).running = (initState [⟨OpCode.CAL, 1, 7⟩] []).running) :=
  ⟨(claimC3_amended (initState [⟨OpCode.INT, 0, 10001⟩] []) ⟨OpCode.INT, 0, 10001⟩ rfl).1
     rfl (by decide),
   (claimC3_amended (initState [⟨OpCode.LIT, 0, 7⟩] []) ⟨OpCode.LIT, 0, 7⟩ rfl).2.1 rfl,
   (claimC3_amended (initState [⟨OpCode.LOD, 0, 5⟩] []) ⟨OpCode.LOD, 0, 5⟩ rfl).2.2.1 rfl,
   (claimC3_amended (initState [⟨OpCode.CAL, 1, 7⟩] []) ⟨OpCode.CAL, 1, 7⟩ rfl).2.2.2 rfl⟩

/-! ## Claim C4: RET semantics and the termination conditions of `run` -/

/-- Counterexample to claim C4 as stated: on the one-instruction program
`LIT 0 1` the loop of `Interpreter::run` starts live, stops after the `LIT`
(because `P` reached the end of the code vector), reports no runtime error,
and the last executed instruction is not a `RET` leaving `T < 0`.  So the
RET-with-`T < 0` test is not the only termination condition in normal
execution. -/
theorem claimC4_counterexample :
    loopCond (initState [⟨OpCode.LIT, 0, 1⟩] []) = true ∧
    loopCond (runLoop 3 (initState [⟨OpCode.LIT, 0, 1⟩] [])) = false ∧
    (runLoop 3 (initState [⟨OpCode.LIT, 0, 1⟩] [])).runtimeError = none ∧
    (runLoop 3 (initState [⟨OpCode.LIT, 0, 1⟩] [])).running = true ∧
    ¬ justRet (runLoop 3 (initState [⟨OpCode.LIT, 0, 1⟩] [])) := by
  refine ⟨rfl, rfl, rfl, rfl, ?_⟩
  intro h
  exact absurd h.1 (by decide)

/-- Claim C4 amended: executing `RET` (`OPR 0 0`) sets `T` to `B − 1`, `P`
to `stack[B+0]` and `B` to `stack[B+1]`; and in a run with no runtime
error the VM stops either because a just-executed `RET` left `T < 0` or
because the program counter left the code vector — these are the only two
termination conditions in normal execution. -/
theorem claimC4_amended :
    (∀ (s : VMState) (i : Instruction), fetch s.code s.P = some i →
      i.op = OpCode.OPR → i.address = 0 →
      (step s).T = s.B - 1 ∧ (step s).P = s.stack (s.B + RA_OFFSET) ∧
      (step s).B = s.stack (s.B + DL_OFFSET)) ∧
    (∀ (n : Nat) (s0 : VMState), loopCond s0 = true →
      loopCond (runLoop n s0) = false → (runLoop n s0).runtimeError = none →
      justRet (runLoop n s0) ∨ outOfCode (runLoop n s0)) := by
  constructor
  · intro s i hf hop ha
    rw [step_eq_dispatch s i hf]
    rw [dispatch_OPR _ hop]
    rw [executeOPR_ret _ ha]
    exact ⟨rfl, rfl, rfl⟩
  · exact runLoop_halt

/-- Witness for the amended C4: the one-instruction program `OPR 0 0`
executes its `RET` (restoring `T = B − 1 = −1`, `P = stack[0] = 0`,
`B = stack[1] = 0`) and the run stops through the RET test. -/
theorem claimC4_amended_witness :
    ((step (initState [⟨OpCode.OPR, 0, 0⟩] [])).T = (initState [⟨OpCode.OPR, 0, 0⟩] []).B - 1 ∧
     (step (initState [⟨OpCode.OPR, 0, 0⟩] [])).P =
       (initState [⟨OpCode.OPR, 0, 0⟩] []).stack ((initState [⟨OpCode.OPR, 0, 0⟩] []).B + RA_OFFSET) ∧
     (step (initState [⟨OpCode.OPR, 0, 0⟩] [])).B =
       (initState [⟨OpCode.OPR, 0, 0⟩] []).stack ((initState [⟨OpCode.OPR, 0, 0⟩] []).B + DL_OFFSET)) ∧
    (justRet (runLoop 2 (initState [⟨OpCode.OPR, 0, 0⟩] [])) ∨
     outOfCode (runLoop 2 (initState [⟨OpCode.OPR, 0, 0⟩] []))) :=
  ⟨claimC4_amended.1 (initState [⟨OpCode.OPR, 0, 0⟩] []) ⟨OpCode.OPR, 0, 0⟩ rfl rfl rfl,
   claimC4_amended.2 2 (initState [⟨OpCode.OPR, 0, 0⟩] []) rfl rfl rfl⟩

/-! ## Claim C2: an out-of-range literal makes `parse()` throw -/

/-- Claim C2 is the spec's intent and the code breaks it: the lexer's
`readNumber` classifies `2147483648` as an `INTEGER` token with only a
warning (no error), yet `parse()` on the resulting token sequence does not
return normally — `std::stoi` in `parseFactor` throws `std::out_of_range`,
which escapes the parser (the `exn` flag in the model). -/
theorem claimC2_parse_throws :
    readNumberCheck "2147483648" = (true, false, ⟨TokenType.INTEGER, "2147483648"⟩) ∧
    (parse 50 bigLitToks).exn = true := by
  constructor
  · decide
  · decide

/-! ## Claim C1: order of CAL and argument-evaluation code -/

/-- Counterexample to claim C1 as stated: parsing
`program p; procedure q(x); begin end; begin call q(1) end` emits the
instruction vector below, in which `CAL 0 1` sits at index 5 and the only
instruction that evaluates the argument `1` — `LIT 0 1` — sits at index 6,
after it; no instruction before the `CAL` is a `LIT 0 1`.  The argument
code is therefore emitted after the `CAL`, not before it. -/
theorem claimC1_counterexample :
    (parse 50 callArgToks).code =
      [⟨OpCode.JMP, 0, 4⟩, ⟨OpCode.JMP, 0, 2⟩, ⟨OpCode.INT, 0, 4⟩, ⟨OpCode.OPR, 0, 0⟩,
       ⟨OpCode.INT, 0, 3⟩, ⟨OpCode.CAL, 0, 1⟩, ⟨OpCode.LIT, 0, 1⟩, ⟨OpCode.OPR, 0, 0⟩] ∧
    (parse 50 callArgToks).code.get? 5 = some ⟨OpCode.CAL, 0, 1⟩ ∧
    (∀ k, k < 5 → (parse 50 callArgToks).code.get? k ≠ some ⟨OpCode.LIT, 0, 1⟩) := by
  refine ⟨by decide, by decide, by decide⟩

/-- Counterexample to claim C7 as stated: after the parameter list of
`procedure q(a, a)` the current scope holds two entries both named `a`
(the parameter loop of `parseProc` declares parameters without any
redeclaration check), and the full parse reports no error at all. -/
theorem claimC7_counterexample :
    dupParamMidState.table.scopes.get? 0 =
      some [⟨"a", SymbolType.VAR, 1, 3⟩, ⟨"a", SymbolType.VAR, 1, 4⟩] ∧
    ¬ scopeNamesUnique [⟨"a", SymbolType.VAR, 1, 3⟩, ⟨"a", SymbolType.VAR, 1, 4⟩] ∧
    (parse 50 dupParamToks).hasErrorFlag = false := by
  refine ⟨by decide, by decide, by decide⟩

/-! ## Basic properties of `Ext` and `Good` -/

theorem ext_refl (s : PState) : Ext s s :=
  ⟨le_refl _, fun _ _ => rfl⟩

theorem ext_trans {s t u : PState} (h1 : Ext s t) (h2 : Ext t u) : Ext s u :=
  ⟨le_trans h1.1 h2.1, fun k hk => (h2.2 k (lt_of_lt_of_le hk h1.1)).trans (h1.2 k hk)⟩

/-- An extension seen as a prefix: the original code is an initial segment
of the extended code. -/
theorem ext_prefix {s t : PState} (h : Ext s t) : ∃ tail, t.code = s.code ++ tail := by
  refine ⟨t.code.drop s.code.length, ?_⟩
  have hlen : s.code.length ≤ t.code.length := h.1
  apply List.ext_get?
  intro k
  by_cases hk : k < s.code.length
  · rw [List.get?_append hk, h.2 k hk]
  · rw [List.get?_append_right (by omega)]
    rw [List.get?_drop]
    congr 1
    omega

theorem good_refl (s : PState) : Good s s :=
  ⟨ext_refl s, fun h => ⟨h, rfl, rfl⟩, id⟩

theorem good_trans {s t u : PState} (h1 : Good s t) (h2 : Good t u) : Good s u := by
  obtain ⟨e1, b1, i1⟩ := h1
  obtain ⟨e2, b2, i2⟩ := h2
  refine ⟨ext_trans e1 e2, ?_, fun h => i2 (i1 h)⟩
  intro hu
  obtain ⟨ht, l1, l2⟩ := b2 hu
  obtain ⟨hs, l3, l4⟩ := b1 ht
  exact ⟨hs, l1.trans l3, l2.trans l4⟩

theorem good_step {f : PState → PState} (hf : ∀ u, Good u (f u)) {s t : PState}
    (h : Good s t) : Good s (f t) :=
  good_trans h (hf t)

theorem good_of_fields {s t : PState} (hc : t.code = s.code) (ht : t.table = s.table)
    (he : t.exn = s.exn) : Good s t := by
  refine ⟨⟨?_, ?_⟩, ?_, ?_⟩
  · rw [hc]
  · intro k _; rw [hc]
  · intro hx; rw [he] at hx; rw [ht]; exact ⟨hx, rfl, rfl⟩
  · intro h; rw [ht]; exact h

theorem good_setExn (s : PState) : Good s { s with exn := true } :=
  ⟨ext_refl s, fun h => Bool.noConfusion h, id⟩

/-! ## The primitive parser actions preserve `Good` -/

theorem good_advanceP (s : PState) : Good s (advanceP s) := by
  unfold advanceP
  split_ifs <;> exact good_of_fields rfl rfl rfl

theorem good_reportErrorP (s : PState) : Good s (reportErrorP s) := by
  unfold reportErrorP
  split_ifs <;> exact good_of_fields rfl rfl rfl

theorem good_matchTok (s : PState) (ty : TokenType) : Good s (matchTok s ty).2 := by
  unfold matchTok
  split_ifs <;> first | exact good_refl s | exact good_advanceP s

theorem good_synchronize : ∀ (n : Nat) (s : PState), Good s (synchronize n s)
  | 0, s => good_refl s
  | Nat.succ n, s => by
    unfold synchronize
    split_ifs <;>
      first
        | exact good_refl s
        | exact good_advanceP s
        | exact good_trans (good_advanceP s) (good_synchronize n (advanceP s))

theorem good_expect (n : Nat) (s : PState) (ty : TokenType) : Good s (expect n s ty) := by
  unfold expect
  split_ifs <;>
    first
      | exact good_refl s
      | exact good_advanceP s
      | exact good_trans (good_reportErrorP s) (good_synchronize n (reportErrorP s))

theorem good_expectSemicolon (n : Nat) (s : PState) : Good s (expectSemicolon n s) := by
  unfold expectSemicolon
  split_ifs <;>
    first
      | exact good_refl s
      | exact good_advanceP s
      | exact good_trans (good_reportErrorP s) (good_synchronize n (reportErrorP s))

theorem good_emit (s : PState) (op : OpCode) (level addr : Int) :
    Good s (emit s op level addr).2 := by
  unfold emit
  split_ifs
  · exact good_refl s
  · refine ⟨⟨?_, ?_⟩, ?_, ?_⟩
    · simp
    · intro k hk
      exact List.get?_append hk
    · intro hx; exact ⟨hx, rfl, rfl⟩
    · exact id

/-- Backpatching an index at or beyond the original code length preserves
`Good` relative to the original state. -/
theorem good_backpatch {s t : PState} (idx addr : Int) (h : Good s t)
    (hidx : t.exn = false → (s.code.length : Int) ≤ idx) :
    Good s (backpatchP t idx addr) := by
  unfold backpatchP
  split_ifs with h1 h2
  · exact h
  · rcases hg : t.code.get? idx.toNat with - | old
    · exact h
    · refine ⟨⟨?_, ?_⟩, ?_, ?_⟩
      · simpa using h.1.1
      · intro k hk
        have hbool : ¬ t.exn = true := h1
        have hex : (s.code.length : Int) ≤ idx := hidx (by simpa using hbool)
        have hne : idx.toNat ≠ k := by omega
        show (t.code.set idx.toNat _).get? k = s.code.get? k
        rw [List.get?_set_ne _ _ hne]
        exact h.1.2 k hk
      · intro hx
        exact h.2.1 hx
      · exact h.2.2
  · exact h

theorem scopes_length_addSymbol (st : SymbolTable) (name : String) (ty : SymbolType)
    (v : Int) : (st.addSymbol name ty v).scopes.length = st.scopes.length ∧
      (st.addSymbol name ty v).addressStack.length = st.addressStack.length := by
  unfold SymbolTable.addSymbol
  rcases st with ⟨scopes, addrs⟩
  cases scopes <;> cases addrs <;> simp <;> split_ifs <;> simp

theorem varAddresses_append_var (scope : List Symbol) (name : String) (lvl a : Int) :
    varAddresses (scope ++ [⟨name, SymbolType.VAR, lvl, a⟩]) = varAddresses scope ++ [a] := by
  unfold varAddresses
  rw [List.filter_append, List.map_append]
  simp

theorem varAddresses_append_other (scope : List Symbol) (sym : Symbol)
    (h : ¬ sym.type = SymbolType.VAR) :
    varAddresses (scope ++ [sym]) = varAddresses scope := by
  unfold varAddresses
  rw [List.filter_append, List.map_append]
  simp [h]

theorem scopeOk_addVar {scope : List Symbol} {counter : Int} (h : ScopeOk scope counter)
    (name : String) (lvl : Int) :
    ScopeOk (scope ++ [⟨name, SymbolType.VAR, lvl, counter⟩]) (counter + 1) := by
  obtain ⟨h1, h2⟩ := h
  have hva := varAddresses_append_var scope name lvl counter
  unfold ScopeOk
  rw [hva, List.length_append, List.length_singleton]
  constructor
  · push_cast
    omega
  · rw [List.range_succ, List.map_append]
    congr 1
    simp
    omega

theorem scopeOk_addOther {scope : List Symbol} {counter : Int} (h : ScopeOk scope counter)
    (sym : Symbol) (hty : ¬ sym.type = SymbolType.VAR) :
    ScopeOk (scope ++ [sym]) counter := by
  unfold ScopeOk
  rw [varAddresses_append_other scope sym hty]
  exact h

theorem tableInv_addSymbol {st : SymbolTable} (h : TableInv st) (name : String)
    (ty : SymbolType) (v : Int) : TableInv (st.addSymbol name ty v) := by
  obtain ⟨hlen, hall⟩ := h
  unfold SymbolTable.addSymbol
  rcases st with ⟨scopes, addrs⟩
  cases scopes with
  | nil => cases addrs <;> exact ⟨hlen, hall⟩
  | cons scope srest =>
    cases addrs with
    | nil => exact ⟨hlen, hall⟩
    | cons addr arest =>
      simp only at hlen hall ⊢
      have hok : ScopeOk scope addr :=
        hall (scope, addr) (by rw [List.zip_cons_cons]; exact List.mem_cons_self _ _)
      split_ifs with hty
      · subst hty
        refine ⟨by simpa using hlen, ?_⟩
        intro pr hpr
        rw [List.zip_cons_cons] at hpr
        rcases List.mem_cons.mp hpr with he | ht
        · rw [he]
          exact scopeOk_addVar hok name _
        · exact hall pr (by rw [List.zip_cons_cons]; exact List.mem_cons_of_mem _ ht)
      · refine ⟨by simpa using hlen, ?_⟩
        intro pr hpr
        rw [List.zip_cons_cons] at hpr
        rcases List.mem_cons.mp hpr with he | ht
        · rw [he]
          exact scopeOk_addOther hok _ hty
        · exact hall pr (by rw [List.zip_cons_cons]; exact List.mem_cons_of_mem _ ht)

theorem scopeOk_empty : ScopeOk [] 3 := by
  constructor <;> simp [varAddresses]

theorem tableInv_enterScope {st : SymbolTable} (h : TableInv st) :
    TableInv st.enterScope := by
  obtain ⟨hlen, hall⟩ := h
  unfold SymbolTable.enterScope
  refine ⟨by simpa using hlen, ?_⟩
  intro pr hpr
  rw [List.zip_cons_cons] at hpr
  rcases List.mem_cons.mp hpr with he | ht
  · rw [he]
    exact scopeOk_empty
  · exact hall pr ht

theorem tableInv_exitScope {st : SymbolTable} (h : TableInv st) :
    TableInv st.exitScope := by
  obtain ⟨hlen, hall⟩ := h
  unfold SymbolTable.exitScope
  rcases st with ⟨scopes, addrs⟩
  cases scopes with
  | nil => exact ⟨hlen, hall⟩
  | cons scope srest =>
    cases addrs with
    | nil => exact ⟨hlen, hall⟩
    | cons addr arest =>
      refine ⟨by simpa using hlen, ?_⟩
      intro pr hpr
      exact hall pr (List.mem_cons_of_mem _ hpr)

theorem good_addSymbolP (s : PState) (name : String) (ty : SymbolType) (v : Int) :
    Good s (addSymbolP s name ty v) := by
  unfold addSymbolP
  split_ifs
  · exact good_refl s
  · refine ⟨ext_refl _, ?_, ?_⟩
    · intro hx
      exact ⟨hx, (scopes_length_addSymbol s.table name ty v).1,
        (scopes_length_addSymbol s.table name ty v).2⟩
    · intro h
      exact tableInv_addSymbol h name ty v

/-! Step forms of the primitive lemmas, for chaining through `Good s _`. -/

theorem good_advanceP_step {s t : PState} (h : Good s t) : Good s (advanceP t) :=
  good_trans h (good_advanceP t)

theorem good_reportErrorP_step {s t : PState} (h : Good s t) : Good s (reportErrorP t) :=
  good_trans h (good_reportErrorP t)

theorem good_matchTok_step {s t : PState} {ty : TokenType} (h : Good s t) :
    Good s (matchTok t ty).2 :=
  good_trans h (good_matchTok t ty)

theorem good_synchronize_step {s t : PState} {n : Nat} (h : Good s t) :
    Good s (synchronize n t) :=
  good_trans h (good_synchronize n t)

theorem good_expect_step {s t : PState} {n : Nat} {ty : TokenType} (h : Good s t) :
    Good s (expect n t ty) :=
  good_trans h (good_expect n t ty)

theorem good_expectSemicolon_step {s t : PState} {n : Nat} (h : Good s t) :
    Good s (expectSemicolon n t) :=
  good_trans h (good_expectSemicolon n t)

theorem good_emit_step {s t : PState} {op : OpCode} {level addr : Int} (h : Good s t) :
    Good s (emit t op level addr).2 :=
  good_trans h (good_emit t op level addr)

theorem good_addSymbolP_step {s t : PState} {name : String} {ty : SymbolType} {v : Int}
    (h : Good s t) : Good s (addSymbolP t name ty v) :=
  good_trans h (good_addSymbolP t name ty v)

/-! `Good` for the stand-alone declaration parsers. -/

theorem good_setExn_step {s t : PState} (h : Good s t) : Good s { t with exn := true } :=
  good_trans h (good_setExn t)

/-- The tail of a `<const>` item after the optional sign: the integer
literal is converted by `std::stoi` (which may throw), checked for
redeclaration, and declared. -/
theorem good_condeclTail (s t : PState) (g : Good s t) (name : String) (b : Bool) :
    Good s (((if check t TokenType.INTEGER then
      match cppStoi (currentToken t).value with
      | none => ({ t with exn := true }, false)
      | some v =>
        let value := if b then -v else v
        let s4 := if (t.table.lookupCurrent name).isSome then reportErrorP t
                  else addSymbolP t name SymbolType.CONST value
        (advanceP s4, true)
      else (reportErrorP t, true)) : PState × Bool)).1 := by
  by_cases hint : check t TokenType.INTEGER = true
  · simp only [if_pos hint]
    rcases hcv : cppStoi (currentToken t).value with - | v
    · simp only [hcv]
      exact good_setExn_step g
    · simp only [hcv]
      by_cases hdup : (t.table.lookupCurrent name).isSome = true
      · simp only [if_pos hdup]
        exact good_advanceP_step (good_reportErrorP_step g)
      · simp only [if_neg hdup]
        exact good_advanceP_step (good_addSymbolP_step g)
  · simp only [if_neg hint]
    exact good_reportErrorP_step g

theorem good_parseCondeclItem (n : Nat) (s : PState) : Good s (parseCondeclItem n s).1 := by
  unfold parseCondeclItem
  by_cases hx : s.exn = true
  · simp only [if_pos hx]
    exact good_refl s
  · simp only [if_neg hx]
    by_cases hid : check s TokenType.IDENTIFIER = true
    · simp only [if_pos hid]
      by_cases hEQ : check (advanceP s) TokenType.EQ = true
      · simp only [if_pos hEQ]
        have g2 : Good s (advanceP (reportErrorP (advanceP s))) :=
          good_advanceP_step (good_reportErrorP_step (good_advanceP s))
        by_cases hm : check (advanceP (reportErrorP (advanceP s))) TokenType.MINUS = true
        · simp only [if_pos hm]
          exact good_condeclTail s _ (good_advanceP_step g2) _ true
        · simp only [if_neg hm]
          by_cases hp : check (advanceP (reportErrorP (advanceP s))) TokenType.PLUS = true
          · simp only [if_pos hp]
            exact good_condeclTail s _ (good_advanceP_step g2) _ false
          · simp only [if_neg hp]
            exact good_condeclTail s _ g2 _ false
      · simp only [if_neg hEQ]
        have g2 : Good s (expect n (advanceP s) TokenType.ASSIGN) :=
          good_expect_step (good_advanceP s)
        by_cases hm : check (expect n (advanceP s) TokenType.ASSIGN) TokenType.MINUS = true
        · simp only [if_pos hm]
          exact good_condeclTail s _ (good_advanceP_step g2) _ true
        · simp only [if_neg hm]
          by_cases hp : check (expect n (advanceP s) TokenType.ASSIGN) TokenType.PLUS = true
          · simp only [if_pos hp]
            exact good_condeclTail s _ (good_advanceP_step g2) _ false
          · simp only [if_neg hp]
            exact good_condeclTail s _ g2 _ false
    · simp only [if_neg hid]
      exact good_reportErrorP s

theorem good_parseCondeclItem_step {s t : PState} {n : Nat} (h : Good s t) :
    Good s (parseCondeclItem n t).1 :=
  good_trans h (good_parseCondeclItem n t)

theorem good_parseCondeclLoop : ∀ (n : Nat) (s : PState), Good s (parseCondeclLoop n s)
  | 0, s => good_refl s
  | Nat.succ n, s => by
    unfold parseCondeclLoop
    dsimp only
    repeat
      first
      | exact good_refl _
      | apply good_step (good_parseCondeclLoop n)
      | apply good_matchTok_step
      | apply good_parseCondeclItem_step
      | split

theorem good_parseCondecl (n : Nat) (s : PState) : Good s (parseCondecl n s) := by
  unfold parseCondecl
  dsimp only
  repeat
    first
    | exact good_refl _
    | apply good_expectSemicolon_step
    | apply good_step (good_parseCondeclLoop n)
    | apply good_expect_step
    | split

theorem good_parseVardeclItem (s : PState) : Good s (parseVardeclItem s).1 := by
  unfold parseVardeclItem
  dsimp only
  repeat
    first
    | exact good_refl _
    | apply good_advanceP_step
    | apply good_reportErrorP_step
    | apply good_addSymbolP_step
    | split

theorem good_parseVardeclItem_step {s t : PState} (h : Good s t) :
    Good s (parseVardeclItem t).1 :=
  good_trans h (good_parseVardeclItem t)

theorem good_parseVardeclLoop : ∀ (n : Nat) (s : PState), Good s (parseVardeclLoop n s)
  | 0, s => good_refl s
  | Nat.succ n, s => by
    unfold parseVardeclLoop
    dsimp only
    repeat
      first
      | exact good_refl _
      | apply good_step (good_parseVardeclLoop n)
      | apply good_matchTok_step
      | apply good_parseVardeclItem_step
      | split

theorem good_parseVardecl (n : Nat) (s : PState) : Good s (parseVardecl n s) := by
  unfold parseVardecl
  dsimp only
  repeat
    first
    | exact good_refl _
    | apply good_expectSemicolon_step
    | apply good_step (good_parseVardeclLoop n)
    | apply good_expect_step
    | split

theorem good_parseParams : ∀ (n : Nat) (s : PState), Good s (parseParams n s)
  | 0, s => good_refl s
  | Nat.succ n, s => by
    unfold parseParams
    dsimp only
    repeat
      first
      | exact good_refl _
      | apply good_step (good_parseParams n)
      | apply good_matchTok_step
      | apply good_advanceP_step
      | apply good_addSymbolP_step
      | split

/-! Exception-flag equations for the primitive actions. -/

theorem advanceP_exn (s : PState) : (advanceP s).exn = s.exn := by
  unfold advanceP; split_ifs <;> rfl

theorem reportErrorP_exn (s : PState) : (reportErrorP s).exn = s.exn := by
  unfold reportErrorP; split_ifs <;> rfl

theorem matchTok_exn (s : PState) (ty : TokenType) : (matchTok s ty).2.exn = s.exn := by
  unfold matchTok
  split_ifs <;> simp [advanceP_exn]

theorem synchronize_exn : ∀ (n : Nat) (s : PState), (synchronize n s).exn = s.exn
  | 0, _ => rfl
  | Nat.succ n, s => by
    unfold synchronize
    split_ifs <;>
      first
        | rfl
        | exact advanceP_exn s
        | exact (synchronize_exn n (advanceP s)).trans (advanceP_exn s)

theorem expect_exn (n : Nat) (s : PState) (ty : TokenType) : (expect n s ty).exn = s.exn := by
  unfold expect
  split_ifs <;>
    first
      | rfl
      | exact advanceP_exn s
      | exact (synchronize_exn n (reportErrorP s)).trans (reportErrorP_exn s)

theorem expectSemicolon_exn (n : Nat) (s : PState) : (expectSemicolon n s).exn = s.exn := by
  unfold expectSemicolon
  split_ifs <;>
    first
      | rfl
      | exact advanceP_exn s
      | exact (synchronize_exn n (reportErrorP s)).trans (reportErrorP_exn s)

theorem emit_exn (s : PState) (op : OpCode) (level addr : Int) :
    (emit s op level addr).2.exn = s.exn := by
  unfold emit; split_ifs <;> rfl

theorem backpatchP_exn (s : PState) (idx addr : Int) : (backpatchP s idx addr).exn = s.exn := by
  unfold backpatchP
  split_ifs
  · rfl
  · rcases s.code.get? idx.toNat <;> rfl
  · rfl

theorem addSymbolP_exn (s : PState) (name : String) (ty : SymbolType) (v : Int) :
    (addSymbolP s name ty v).exn = s.exn := by
  unfold addSymbolP; split_ifs <;> rfl

theorem enterScopeP_exn (s : PState) : (enterScopeP s).exn = s.exn := by
  unfold enterScopeP; split_ifs <;> rfl

theorem exitScopeP_exn (s : PState) : (exitScopeP s).exn = s.exn := by
  unfold exitScopeP; split_ifs <;> rfl

/-! Symbol-table equations for the primitive actions. -/

theorem advanceP_table (s : PState) : (advanceP s).table = s.table := by
  unfold advanceP; split_ifs <;> rfl

theorem reportErrorP_table (s : PState) : (reportErrorP s).table = s.table := by
  unfold reportErrorP; split_ifs <;> rfl

theorem matchTok_table (s : PState) (ty : TokenType) : (matchTok s ty).2.table = s.table := by
  unfold matchTok
  split_ifs <;> simp [advanceP_table]

theorem synchronize_table : ∀ (n : Nat) (s : PState), (synchronize n s).table = s.table
  | 0, _ => rfl
  | Nat.succ n, s => by
    unfold synchronize
    split_ifs <;>
      first
        | rfl
        | exact advanceP_table s
        | exact (synchronize_table n (advanceP s)).trans (advanceP_table s)

theorem expect_table (n : Nat) (s : PState) (ty : TokenType) :
    (expect n s ty).table = s.table := by
  unfold expect
  split_ifs <;>
    first
      | rfl
      | exact advanceP_table s
      | exact (synchronize_table n (reportErrorP s)).trans (reportErrorP_table s)

theorem expectSemicolon_table (n : Nat) (s : PState) :
    (expectSemicolon n s).table = s.table := by
  unfold expectSemicolon
  split_ifs <;>
    first
      | rfl
      | exact advanceP_table s
      | exact (synchronize_table n (reportErrorP s)).trans (reportErrorP_table s)

theorem emit_table (s : PState) (op : OpCode) (level addr : Int) :
    (emit s op level addr).2.table = s.table := by
  unfold emit; split_ifs <;> rfl

theorem backpatchP_table (s : PState) (idx addr : Int) :
    (backpatchP s idx addr).table = s.table := by
  unfold backpatchP
  split_ifs
  · rfl
  · rcases s.code.get? idx.toNat <;> rfl
  · rfl

theorem enterScopeP_table (s : PState) (h : s.exn = false) :
    (enterScopeP s).table = s.table.enterScope := by
  unfold enterScopeP
  rw [if_neg (by simp [h])]

theorem exitScopeP_table (s : PState) (h : s.exn = false) :
    (exitScopeP s).table = s.table.exitScope := by
  unfold exitScopeP
  rw [if_neg (by simp [h])]

theorem enterScopeP_code (s : PState) : (enterScopeP s).code = s.code := by
  unfold enterScopeP; split_ifs <;> rfl

theorem exitScopeP_code (s : PState) : (exitScopeP s).code = s.code := by
  unfold exitScopeP; split_ifs <;> rfl

theorem tableInv_enterScopeP (s : PState) (h : TableInv s.table) :
    TableInv (enterScopeP s).table := by
  unfold enterScopeP
  split_ifs
  · exact h
  · exact tableInv_enterScope h

theorem tableInv_exitScopeP (s : PState) (h : TableInv s.table) :
    TableInv (exitScopeP s).table := by
  unfold exitScopeP
  split_ifs
  · exact h
  · exact tableInv_exitScope h

theorem enterScope_lengths (st : SymbolTable) :
    st.enterScope.scopes.length = st.scopes.length + 1 ∧
    st.enterScope.addressStack.length = st.addressStack.length + 1 := by
  unfold SymbolTable.enterScope
  simp

theorem exitScope_lengths (st : SymbolTable) (h1 : st.scopes ≠ []) (h2 : st.addressStack ≠ []) :
    st.exitScope.scopes.length = st.scopes.length - 1 ∧
    st.exitScope.addressStack.length = st.addressStack.length - 1 := by
  unfold SymbolTable.exitScope
  rcases st with ⟨scopes, addrs⟩
  cases scopes with
  | nil => exact absurd rfl h1
  | cons a b =>
    cases addrs with
    | nil => exact absurd rfl h2
    | cons c d => simp

/-- The index returned by `emit` when no exception is pending. -/
theorem emit_fst (s : PState) (op : OpCode) (level addr : Int) (h : s.exn = false) :
    (emit s op level addr).1 = (s.code.length : Int) := by
  unfold emit
  rw [if_neg (by simp [h])]

/-- The code produced by `emit` when no exception is pending. -/
theorem emit_code (s : PState) (op : OpCode) (level addr : Int) (h : s.exn = false) :
    (emit s op level addr).2.code = s.code ++ [⟨op, level, addr⟩] := by
  unfold emit
  rw [if_neg (by simp [h])]

theorem good_parseReadLoop : ∀ (n : Nat) (s : PState), Good s (parseReadLoop n s)
  | 0, s => good_refl s
  | Nat.succ n, s => by
    unfold parseReadLoop
    dsimp only
    repeat
      first
      | exact good_refl _
      | apply good_step (good_parseReadLoop n)
      | apply good_advanceP_step
      | apply good_reportErrorP_step
      | apply good_matchTok_step
      | apply good_emit_step
      | split

theorem good_parseProcName (s : PState) : Good s (parseProcName s) := by
  unfold parseProcName
  by_cases hid : check s TokenType.IDENTIFIER = true
  · rw [if_pos hid]
    by_cases hdup : (s.table.lookupCurrent (currentToken s).value).isSome = true
    · rw [if_pos hdup]
      exact good_advanceP_step (good_reportErrorP s)
    · rw [if_neg hdup]
      exact good_advanceP_step (good_addSymbolP s _ _ _)
  · rw [if_neg hid]
    exact good_reportErrorP s

theorem good_parseCallTarget (s : PState) : Good s (parseCallTarget s) := by
  unfold parseCallTarget
  by_cases hid : check s TokenType.IDENTIFIER = true
  · rw [if_pos hid]
    rcases hlk : s.table.lookup (currentToken s).value with - | sym
    · exact good_advanceP_step (good_reportErrorP s)
    · by_cases hty : sym.type ≠ SymbolType.PROCEDURE
      · simp only [if_pos hty]
        exact good_advanceP_step (good_reportErrorP s)
      · simp only [if_neg hty]
        exact good_advanceP_step (good_emit_step (good_refl s))
  · rw [if_neg hid]
    exact good_reportErrorP s

theorem good_parseFactorIdent (s : PState) : Good s (parseFactorIdent s) := by
  unfold parseFactorIdent
  rcases hlk : s.table.lookup (currentToken s).value with - | sym
  · exact good_advanceP_step (good_reportErrorP s)
  · by_cases h1 : sym.type = SymbolType.CONST
    · simp only [if_pos h1]
      exact good_advanceP_step (good_emit_step (good_refl s))
    · simp only [if_neg h1]
      by_cases h2 : sym.type = SymbolType.VAR
      · simp only [if_pos h2]
        exact good_advanceP_step (good_emit_step (good_refl s))
      · simp only [if_neg h2]
        exact good_advanceP_step (good_reportErrorP s)

theorem good_parseFactorInt (s : PState) : Good s (parseFactorInt s) := by
  unfold parseFactorInt
  rcases hcv : cppStoi (currentToken s).value with - | v
  · exact good_setExn s
  · exact good_advanceP_step (good_emit_step (good_refl s))

theorem good_emitRelOpr (relOp : TokenType) {s t : PState} (h : Good s t) :
    Good s (emitRelOpr relOp t) := by
  unfold emitRelOpr
  cases relOp <;> first | exact h | exact good_emit_step h

theorem goodAll : ∀ n : Nat,
    (∀ s, Good s (parseBlock n s)) ∧
    (∀ s, Good s (parseProcLoop n s)) ∧
    (∀ s, Good s (parseProc n s)) ∧
    (∀ s, Good s (parseBody n s)) ∧
    (∀ s, Good s (parseBodyLoop n s)) ∧
    (∀ s, Good s (parseAssignRecover n s)) ∧
    (∀ s, Good s (parseAssignStmt n s)) ∧
    (∀ s, Good s (parseIfStmt n s)) ∧
    (∀ s, Good s (parseWhileStmt n s)) ∧
    (∀ s, Good s (parseCallStmt n s)) ∧
    (∀ s, Good s (parseReadStmt n s)) ∧
    (∀ s, Good s (parseWriteStmt n s)) ∧
    (∀ s, Good s (parseStatement n s)) ∧
    (∀ s, Good s (parseCallArgs n s)) ∧
    (∀ s, Good s (parseWriteLoop n s)) ∧
    (∀ s, Good s (parseLexp n s)) ∧
    (∀ s, Good s (parseExp n s)) ∧
    (∀ s, Good s (parseExpLoop n s)) ∧
    (∀ s, Good s (parseTerm n s)) ∧
    (∀ s, Good s (parseTermLoop n s)) ∧
    (∀ s, Good s (parseFactor n s)) := by
  intro n
  induction n with
  | zero =>
    exact ⟨fun s => good_refl s, fun s => good_refl s, fun s => good_refl s,
      fun s => good_refl s, fun s => good_refl s, fun s => good_refl s,
      fun s => good_refl s, fun s => good_refl s, fun s => good_refl s,
      fun s => good_refl s, fun s => good_refl s, fun s => good_refl s,
      fun s => good_refl s, fun s => good_refl s, fun s => good_refl s,
      fun s => good_refl s, fun s => good_refl s, fun s => good_refl s,
      fun s => good_refl s, fun s => good_refl s, fun s => good_refl s⟩
  | succ n ih =>
    obtain ⟨ihBlock, ihProcLoop, ihProc, ihBody, ihBodyLoop, ihRecover, ihAssign, ihIf,
      ihWhile, ihCall, ihRead, ihWrite, ihStatement, ihCallArgs, ihWriteLoop, ihLexp,
      ihExp, ihExpLoop, ihTerm, ihTermLoop, ihFactor⟩ := ih
    refine ⟨?_, ?_, ?_, ?_, ?_, ?_, ?_, ?_, ?_, ?_, ?_, ?_, ?_, ?_, ?_, ?_, ?_, ?_, ?_,
      ?_, ?_⟩
    · -- parseBlock
      intro s
      simp only [parseBlock]
      by_cases hx : s.exn = true
      · rw [if_pos hx]; exact good_refl s
      · rw [if_neg hx]
        have hxf : s.exn = false := by revert hx; cases s.exn <;> simp
        set s1 := (emit s OpCode.JMP 0 0).2 with hs1
        have g1 : Good s s1 := good_emit s _ _ _
        set s2 := (if check s1 TokenType.CONST = true then parseCondecl n s1 else s1) with hs2
        have g2 : Good s s2 := by
          rw [hs2]
          split_ifs
          · exact good_trans g1 (good_parseCondecl n s1)
          · exact g1
        set s3 := (if check s2 TokenType.VAR = true then parseVardecl n s2 else s2) with hs3
        have g3 : Good s s3 := by
          rw [hs3]
          split_ifs
          · exact good_trans g2 (good_parseVardecl n s2)
          · exact g2
        set s4 := parseProcLoop n s3 with hs4
        have g4 : Good s s4 := good_trans g3 (ihProcLoop s3)
        apply good_step ihBody
        apply good_emit_step
        apply good_backpatch _ _ g4
        intro h4
        rw [emit_fst s _ _ _ hxf]
    · -- parseProcLoop
      intro s
      simp only [parseProcLoop]
      split_ifs
      · exact good_refl s
      · exact good_step ihProcLoop (ihProc s)
      · exact good_refl s
    · -- parseProc
      intro s
      simp only [parseProc]
      by_cases hx : s.exn = true
      · rw [if_pos hx]; exact good_refl s
      · rw [if_neg hx]
        set s2 := parseProcName (expect n s TokenType.PROCEDURE) with hs2
        have g2 : Good s s2 := good_trans (good_expect n s _) (good_parseProcName _)
        set s3 := expect n s2 TokenType.LPAREN with hs3
        have g3 : Good s s3 := good_expect_step g2
        set s4 := enterScopeP s3 with hs4
        set s5 := (if check s4 TokenType.IDENTIFIER = true then parseParams n s4 else s4)
          with hs5
        have g45 : Good s4 s5 := by
          rw [hs5]
          split_ifs
          · exact good_parseParams n s4
          · exact good_refl s4
        set s8 := parseBlock n (expectSemicolon n (expect n s5 TokenType.RPAREN)) with hs8
        have g48 : Good s4 s8 := good_step ihBlock (good_expectSemicolon_step
          (good_expect_step g45))
        set s9 := (emit s8 OpCode.OPR 0 OprType.RET).2 with hs9
        have g49 : Good s4 s9 := good_emit_step g48
        apply good_expectSemicolon_step
        -- Good s (exitScopeP s9), assembled componentwise around the scope push/pop
        refine ⟨?_, ?_, ?_⟩
        · refine ext_trans g3.1 (ext_trans ?_ (ext_trans g49.1 ?_))
          · exact ⟨le_of_eq (by rw [enterScopeP_code]), fun k hk => by rw [enterScopeP_code]⟩
          · exact ⟨le_of_eq (by rw [exitScopeP_code]), fun k hk => by rw [exitScopeP_code]⟩
        · intro hexi
          rw [exitScopeP_exn] at hexi
          have h9 : s9.exn = false := hexi
          have h8 : s8.exn = false := by
            rw [← emit_exn s8 OpCode.OPR 0 OprType.RET]; exact h9
          obtain ⟨h4, hl9s, hl9a⟩ := g49.2.1 h9
          have h3 : s3.exn = false := by
            rw [← enterScopeP_exn s3]; exact h4
          obtain ⟨hs0, hl3s, hl3a⟩ := g3.2.1 h3
          have ht4 : s4.table = s3.table.enterScope := enterScopeP_table s3 h3
          have hlen4s : s4.table.scopes.length = s3.table.scopes.length + 1 := by
            rw [ht4]; exact (enterScope_lengths s3.table).1
          have hlen4a : s4.table.addressStack.length = s3.table.addressStack.length + 1 := by
            rw [ht4]; exact (enterScope_lengths s3.table).2
          have hne1 : s9.table.scopes ≠ [] := by
            have : s9.table.scopes.length = s3.table.scopes.length + 1 := by
              rw [hl9s, hlen4s]
            intro hc
            rw [hc] at this
            simp at this
          have hne2 : s9.table.addressStack ≠ [] := by
            have : s9.table.addressStack.length = s3.table.addressStack.length + 1 := by
              rw [hl9a, hlen4a]
            intro hc
            rw [hc] at this
            simp at this
          have hexit : (exitScopeP s9).table = s9.table.exitScope := exitScopeP_table s9 h9
          refine ⟨hs0, ?_, ?_⟩
          · rw [hexit, (exitScope_lengths s9.table hne1 hne2).1, hl9s, hlen4s, hl3s]
            simp
          · rw [hexit, (exitScope_lengths s9.table hne1 hne2).2, hl9a, hlen4a, hl3a]
            simp
        · intro hinv
          have hinv3 : TableInv s3.table := g3.2.2 hinv
          have hinv4 : TableInv s4.table := by
            rw [hs4]; exact tableInv_enterScopeP s3 hinv3
          have hinv9 : TableInv s9.table := g49.2.2 hinv4
          exact tableInv_exitScopeP s9 hinv9
    · -- parseBody
      intro s
      simp only [parseBody]
      by_cases hx : s.exn = true
      · rw [if_pos hx]; exact good_refl s
      · rw [if_neg hx]
        have g3 : Good s (parseBodyLoop n (parseStatement n (expect n s TokenType.BEGIN))) :=
          good_step ihBodyLoop (good_step ihStatement (good_expect n s TokenType.BEGIN))
        by_cases he : check (parseBodyLoop n (parseStatement n
            (expect n s TokenType.BEGIN))) TokenType.END = true
        · rw [if_pos he]; exact good_expect_step g3
        · rw [if_neg he]; exact good_expect_step (good_reportErrorP_step g3)
    · -- parseBodyLoop
      intro s
      simp only [parseBodyLoop]
      by_cases hx : s.exn = true
      · rw [if_pos hx]; exact good_refl s
      · rw [if_neg hx]
        by_cases hm : (matchTok s TokenType.SEMICOLON).1 = true
        · rw [if_pos hm]
          by_cases he : check (matchTok s TokenType.SEMICOLON).2 TokenType.END = true
          · rw [if_pos he]; exact good_matchTok s _
          · rw [if_neg he]
            exact good_step ihBodyLoop (good_step ihStatement (good_matchTok s _))
        · rw [if_neg hm]; exact good_matchTok s _
    · -- parseAssignRecover
      intro s
      simp only [parseAssignRecover]
      by_cases hc : (check (advanceP (reportErrorP s)) TokenType.ASSIGN ||
          check (advanceP (reportErrorP s)) TokenType.EQ) = true
      · rw [if_pos hc]
        exact good_step ihExp (good_advanceP_step (good_advanceP_step (good_reportErrorP s)))
      · rw [if_neg hc]
        exact good_advanceP_step (good_reportErrorP s)
    · -- parseAssignStmt
      intro s
      simp only [parseAssignStmt]
      by_cases hx : s.exn = true
      · rw [if_pos hx]; exact good_refl s
      · rw [if_neg hx]
        rcases hlk : s.table.lookup (currentToken s).value with - | sym
        · exact ihRecover s
        · by_cases h1 : sym.type = SymbolType.CONST
          · simp only [if_pos h1]; exact ihRecover s
          · simp only [if_neg h1]
            by_cases h2 : sym.type = SymbolType.PROCEDURE
            · simp only [if_pos h2]; exact ihRecover s
            · simp only [if_neg h2]
              by_cases h3 : check (advanceP s) TokenType.EQ = true
              · rw [if_pos h3]
                exact good_emit_step (good_step ihExp
                  (good_advanceP_step (good_reportErrorP_step (good_advanceP s))))
              · rw [if_neg h3]
                exact good_emit_step (good_step ihExp (good_expect_step (good_advanceP s)))
    · -- parseIfStmt
      intro s
      simp only [parseIfStmt]
      set s2 := expect n (parseLexp n s) TokenType.THEN with hs2
      have g2 : Good s s2 := good_expect_step (ihLexp s)
      set s4 := parseStatement n (emit s2 OpCode.JPC 0 0).2 with hs4
      have g4 : Good s s4 := good_step ihStatement (good_emit_step g2)
      have hback : s4.exn = false → s2.exn = false := by
        intro h4
        have hj : (emit s2 OpCode.JPC 0 0).2.exn = false := ((ihStatement _).2.1 h4).1
        rw [← emit_exn s2 OpCode.JPC 0 0]
        exact hj
      by_cases hel : (matchTok s4 TokenType.ELSE).1 = true
      · rw [if_pos hel]
        set m2 := (matchTok s4 TokenType.ELSE).2 with hm2
        have gm : Good s m2 := good_matchTok_step g4
        set jj := (emit m2 OpCode.JMP 0 0).2 with hjj
        have gjj : Good s jj := good_emit_step gm
        have g7 : Good s (backpatchP jj (emit s2 OpCode.JPC 0 0).1 (getNextAddressP jj)) := by
          apply good_backpatch _ _ gjj
          intro hj
          have hm2x : m2.exn = false := by
            rw [← emit_exn m2 OpCode.JMP 0 0]; exact hj
          have h4x : s4.exn = false := by
            rw [← matchTok_exn s4 TokenType.ELSE]; exact hm2x
          have h2x : s2.exn = false := hback h4x
          rw [emit_fst _ _ _ _ h2x]
          exact_mod_cast g2.1.1
        set s8 := parseStatement n (backpatchP jj (emit s2 OpCode.JPC 0 0).1
          (getNextAddressP jj)) with hs8
        have g8 : Good s s8 := good_step ihStatement g7
        apply good_backpatch _ _ g8
        intro h8x
        have h7x : (backpatchP jj (emit s2 OpCode.JPC 0 0).1 (getNextAddressP jj)).exn =
            false := ((ihStatement _).2.1 h8x).1
        rw [backpatchP_exn] at h7x
        have hm2x : m2.exn = false := by
          rw [← emit_exn m2 OpCode.JMP 0 0]; exact h7x
        rw [emit_fst _ _ _ _ hm2x]
        exact_mod_cast gm.1.1
      · rw [if_neg hel]
        apply good_backpatch _ _ (good_matchTok_step g4)
        intro hmx
        have h4x : s4.exn = false := by
          rw [← matchTok_exn s4 TokenType.ELSE]; exact hmx
        have h2x : s2.exn = false := hback h4x
        rw [emit_fst _ _ _ _ h2x]
        exact_mod_cast g2.1.1
    · -- parseWhileStmt
      intro s
      simp only [parseWhileStmt]
      set s2 := expect n (parseLexp n s) TokenType.DO with hs2
      have g2 : Good s s2 := good_expect_step (ihLexp s)
      set s4 := parseStatement n (emit s2 OpCode.JPC 0 0).2 with hs4
      have g4 : Good s s4 := good_step ihStatement (good_emit_step g2)
      set s5 := (emit s4 OpCode.JMP 0 (getNextAddressP s)).2 with hs5
      have g5 : Good s s5 := good_emit_step g4
      apply good_backpatch _ _ g5
      intro h5x
      have h4x : s4.exn = false := by
        rw [← emit_exn s4 OpCode.JMP 0 (getNextAddressP s)]; exact h5x
      have hjx : (emit s2 OpCode.JPC 0 0).2.exn = false := ((ihStatement _).2.1 h4x).1
      have h2x : s2.exn = false := by
        rw [← emit_exn s2 OpCode.JPC 0 0]; exact hjx
      rw [emit_fst _ _ _ _ h2x]
      exact_mod_cast g2.1.1
    · -- parseCallStmt
      intro s
      simp only [parseCallStmt]
      by_cases hr : check (expect n (parseCallTarget s) TokenType.LPAREN)
          TokenType.RPAREN = true
      · rw [if_pos hr]
        exact good_expect_step (good_expect_step (good_parseCallTarget s))
      · rw [if_neg hr]
        exact good_expect_step (good_step ihCallArgs
          (good_expect_step (good_parseCallTarget s)))
    · -- parseReadStmt
      intro s
      simp only [parseReadStmt]
      exact good_expect_step (good_step (good_parseReadLoop n)
        (good_expect n s TokenType.LPAREN))
    · -- parseWriteStmt
      intro s
      simp only [parseWriteStmt]
      exact good_expect_step (good_step ihWriteLoop (good_expect n s TokenType.LPAREN))
    · -- parseStatement
      intro s
      simp only [parseStatement]
      by_cases hx : s.exn = true
      · rw [if_pos hx]; exact good_refl s
      · rw [if_neg hx]
        by_cases hid : check s TokenType.IDENTIFIER = true
        · rw [if_pos hid]; exact ihAssign s
        · rw [if_neg hid]
          by_cases h1 : (matchTok s TokenType.IF).1 = true
          · rw [if_pos h1]; exact good_step ihIf (good_matchTok s _)
          · rw [if_neg h1]
            by_cases h2 : (matchTok s TokenType.WHILE).1 = true
            · rw [if_pos h2]; exact good_step ihWhile (good_matchTok s _)
            · rw [if_neg h2]
              by_cases h3 : (matchTok s TokenType.CALL).1 = true
              · rw [if_pos h3]; exact good_step ihCall (good_matchTok s _)
              · rw [if_neg h3]
                by_cases h4 : check s TokenType.BEGIN = true
                · rw [if_pos h4]; exact ihBody s
                · rw [if_neg h4]
                  by_cases h5 : (matchTok s TokenType.READ).1 = true
                  · rw [if_pos h5]; exact good_step ihRead (good_matchTok s _)
                  · rw [if_neg h5]
                    by_cases h6 : (matchTok s TokenType.WRITE).1 = true
                    · rw [if_pos h6]; exact good_step ihWrite (good_matchTok s _)
                    · rw [if_neg h6]
                      by_cases h7 : (check s TokenType.SEMICOLON || check s TokenType.END ||
                          check s TokenType.ELSE || check s TokenType.END_OF_FILE) = true
                      · rw [if_pos h7]; exact good_refl s
                      · rw [if_neg h7]; exact good_reportErrorP s
    · -- parseCallArgs
      intro s
      simp only [parseCallArgs]
      by_cases hx : s.exn = true
      · rw [if_pos hx]; exact good_refl s
      · rw [if_neg hx]
        by_cases hm : (matchTok (parseExp n s) TokenType.COMMA).1 = true
        · rw [if_pos hm]
          exact good_step ihCallArgs (good_matchTok_step (ihExp s))
        · rw [if_neg hm]
          exact good_matchTok_step (ihExp s)
    · -- parseWriteLoop
      intro s
      simp only [parseWriteLoop]
      by_cases hx : s.exn = true
      · rw [if_pos hx]; exact good_refl s
      · rw [if_neg hx]
        by_cases hm : (matchTok (emit (parseExp n s) OpCode.WRT 0 0).2 TokenType.COMMA).1 = true
        · rw [if_pos hm]
          exact good_step ihWriteLoop (good_matchTok_step (good_emit_step (ihExp s)))
        · rw [if_neg hm]
          exact good_matchTok_step (good_emit_step (ihExp s))
    · -- parseLexp
      intro s
      simp only [parseLexp]
      by_cases hx : s.exn = true
      · rw [if_pos hx]; exact good_refl s
      · rw [if_neg hx]
        by_cases ho : (matchTok s TokenType.ODD).1 = true
        · rw [if_pos ho]
          exact good_emit_step (good_step ihExp (good_matchTok s _))
        · rw [if_neg ho]
          by_cases hrel : (check (parseExp n s) TokenType.EQ ||
              check (parseExp n s) TokenType.NEQ || check (parseExp n s) TokenType.LT ||
              check (parseExp n s) TokenType.LEQ || check (parseExp n s) TokenType.GT ||
              check (parseExp n s) TokenType.GEQ) = true
          · rw [if_pos hrel]
            exact good_emitRelOpr _ (good_step ihExp (good_advanceP_step (ihExp s)))
          · rw [if_neg hrel]
            exact good_reportErrorP_step (ihExp s)
    · -- parseExp
      intro s
      simp only [parseExp]
      by_cases hx : s.exn = true
      · rw [if_pos hx]; exact good_refl s
      · rw [if_neg hx]
        by_cases hp : (matchTok s TokenType.PLUS).1 = true
        · rw [if_pos hp]
          exact good_step ihExpLoop (good_step ihTerm (good_matchTok s _))
        · rw [if_neg hp]
          by_cases hm : (matchTok s TokenType.MINUS).1 = true
          · rw [if_pos hm]
            exact good_step ihExpLoop (good_emit_step (good_step ihTerm (good_matchTok s _)))
          · rw [if_neg hm]
            exact good_step ihExpLoop (ihTerm s)
    · -- parseExpLoop
      intro s
      simp only [parseExpLoop]
      by_cases hx : s.exn = true
      · rw [if_pos hx]; exact good_refl s
      · rw [if_neg hx]
        by_cases hc : (check s TokenType.PLUS || check s TokenType.MINUS) = true
        · rw [if_pos hc]
          by_cases hpl : check s TokenType.PLUS = true
          · rw [if_pos hpl]
            exact good_step ihExpLoop (good_emit_step (good_step ihTerm (good_advanceP s)))
          · rw [if_neg hpl]
            exact good_step ihExpLoop (good_emit_step (good_step ihTerm (good_advanceP s)))
        · rw [if_neg hc]; exact good_refl s
    · -- parseTerm
      intro s
      simp only [parseTerm]
      by_cases hx : s.exn = true
      · rw [if_pos hx]; exact good_refl s
      · rw [if_neg hx]
        exact good_step ihTermLoop (ihFactor s)
    · -- parseTermLoop
      intro s
      simp only [parseTermLoop]
      by_cases hx : s.exn = true
      · rw [if_pos hx]; exact good_refl s
      · rw [if_neg hx]
        by_cases hc : (check s TokenType.MULTIPLY || check s TokenType.DIVIDE) = true
        · rw [if_pos hc]
          by_cases hmu : check s TokenType.MULTIPLY = true
          · rw [if_pos hmu]
            exact good_step ihTermLoop (good_emit_step (good_step ihFactor (good_advanceP s)))
          · rw [if_neg hmu]
            exact good_step ihTermLoop (good_emit_step (good_step ihFactor (good_advanceP s)))
        · rw [if_neg hc]; exact good_refl s
    · -- parseFactor
      intro s
      simp only [parseFactor]
      by_cases hx : s.exn = true
      · rw [if_pos hx]; exact good_refl s
      · rw [if_neg hx]
        by_cases h1 : check s TokenType.IDENTIFIER = true
        · rw [if_pos h1]; exact good_parseFactorIdent s
        · rw [if_neg h1]
          by_cases h2 : check s TokenType.INTEGER = true
          · rw [if_pos h2]; exact good_parseFactorInt s
          · rw [if_neg h2]
            by_cases h3 : (matchTok s TokenType.LPAREN).1 = true
            · rw [if_pos h3]
              exact good_expect_step (good_step ihExp (good_matchTok s _))
            · rw [if_neg h3]
              exact good_reportErrorP s

theorem vmStep_sound {s t : VMState} (h : VMStep s t) :
    loopCond s = true ∧ t = runIter s := by
  cases h with
  | lit i hl hf hop =>
    refine ⟨hl, ?_⟩
    unfold runIter
    rw [step_eq_dispatch s i hf, dispatch_LIT _ hop]
  | opr i hl hf hop =>
    refine ⟨hl, ?_⟩
    unfold runIter
    rw [step_eq_dispatch s i hf, dispatch_OPR _ hop]
  | lod i hl hf hop =>
    refine ⟨hl, ?_⟩
    unfold runIter
    rw [step_eq_dispatch s i hf, dispatch_LOD _ hop]
  | sto i hl hf hop =>
    refine ⟨hl, ?_⟩
    unfold runIter
    rw [step_eq_dispatch s i hf, dispatch_STO _ hop]
  | cal i hl hf hop =>
    refine ⟨hl, ?_⟩
    unfold runIter
    rw [step_eq_dispatch s i hf, dispatch_CAL _ hop]
  | int i hl hf hop =>
    refine ⟨hl, ?_⟩
    unfold runIter
    rw [step_eq_dispatch s i hf, dispatch_INT _ hop]
  | jmp i hl hf hop =>
    refine ⟨hl, ?_⟩
    unfold runIter
    rw [step_eq_dispatch s i hf, dispatch_JMP _ hop]
  | jpc i hl hf hop =>
    refine ⟨hl, ?_⟩
    unfold runIter
    rw [step_eq_dispatch s i hf, dispatch_JPC _ hop]
  | red i hl hf hop =>
    refine ⟨hl, ?_⟩
    unfold runIter
    rw [step_eq_dispatch s i hf, dispatch_RED _ hop]
  | wrt i hl hf hop =>
    refine ⟨hl, ?_⟩
    unfold runIter
    rw [step_eq_dispatch s i hf, dispatch_WRT _ hop]

theorem vmStep_complete (s : VMState) (h : loopCond s = true) : VMStep s (runIter s) := by
  obtain ⟨i, hf⟩ := fetch_some s h
  have hri : runIter s = retCheck (dispatch { s with I := i, P := s.P + 1 }) := by
    unfold runIter
    rw [step_eq_dispatch s i hf]
  cases hop : i.op
  case LIT => rw [hri, dispatch_LIT _ hop]; exact VMStep.lit s i h hf hop
  case OPR => rw [hri, dispatch_OPR _ hop]; exact VMStep.opr s i h hf hop
  case LOD => rw [hri, dispatch_LOD _ hop]; exact VMStep.lod s i h hf hop
  case STO => rw [hri, dispatch_STO _ hop]; exact VMStep.sto s i h hf hop
  case CAL => rw [hri, dispatch_CAL _ hop]; exact VMStep.cal s i h hf hop
  case INT => rw [hri, dispatch_INT _ hop]; exact VMStep.int s i h hf hop
  case JMP => rw [hri, dispatch_JMP _ hop]; exact VMStep.jmp s i h hf hop
  case JPC => rw [hri, dispatch_JPC _ hop]; exact VMStep.jpc s i h hf hop
  case RED => rw [hri, dispatch_RED _ hop]; exact VMStep.red s i h hf hop
  case WRT => rw [hri, dispatch_WRT _ hop]; exact VMStep.wrt s i h hf hop

theorem vmStep_deterministic {s t u : VMState} (h1 : VMStep s t) (h2 : VMStep s u) : t = u := by
  rw [(vmStep_sound h1).2, (vmStep_sound h2).2]

/-- A halted configuration (the loop guard fails) takes no step. -/
theorem vmStep_halted {s t : VMState} (h : loopCond s = false) : ¬ VMStep s t := by
  intro hs
  rw [(vmStep_sound hs).1] at h
  exact Bool.noConfusion h

/-- The unique-normal-form property of the deterministic loop relation. -/
theorem vmStep_unique {a b c : VMState}
    (hab : Relation.ReflTransGen VMStep a b) (hac : Relation.ReflTransGen VMStep a c)
    (hb : loopCond b = false) (hc : loopCond c = false) : b = c := by
  induction hab using Relation.ReflTransGen.head_induction_on with
  | refl =>
    rcases (Relation.ReflTransGen.cases_head hac) with he | ⟨x, hx, -⟩
    · exact he
    · exact absurd hx (vmStep_halted hb)
  | head hstep htail ihtail =>
    rcases (Relation.ReflTransGen.cases_head hac) with he | ⟨x, hx, hxc⟩
    · rw [← he] at hc
      exact absurd hstep (vmStep_halted hc)
    · have hmx := vmStep_deterministic hstep hx
      subst hmx
      exact ihtail hxc

/-- Any number of iterations of the run loop is a chain of `VMStep`s. -/
theorem reaches_runLoop : ∀ (k : Nat) (s : VMState),
    Relation.ReflTransGen VMStep s (runLoop k s)
  | 0, _ => Relation.ReflTransGen.refl
  | Nat.succ k, s => by
    by_cases h : loopCond s = true
    · have h1 : VMStep s (runIter s) := vmStep_complete s h
      have h2 := reaches_runLoop k (runIter s)
      have h3 : runLoop (Nat.succ k) s = runLoop k (runIter s) := by
        simp [runLoop, h]
      rw [h3]
      exact Relation.ReflTransGen.head h1 h2
    · have hf : loopCond s = false := by revert h; cases loopCond s <;> simp
      rw [runLoop_stopped (Nat.succ k) s hf]

/-- C8: for every source text (token list) and every fixed sequence of
values supplied to `read`, two complete runs of compile-then-execute from
the same initial configuration reach the same final state, in particular
byte-identical `write` outputs: the run loop is deterministic, so the
compile-then-execute pipeline is a function of the source and the input
sequence. -/
theorem claimC8 (n : Nat) (toks : List Token) (ins : List Int) (t1 t2 : VMState)
    (h1 : Relation.ReflTransGen VMStep (initState (parse n toks).code ins) t1)
    (h2 : Relation.ReflTransGen VMStep (initState (parse n toks).code ins) t2)
    (hh1 : loopCond t1 = false) (hh2 : loopCond t2 = false) :
    t1.output = t2.output ∧ t1 = t2 := by
  have h := vmStep_unique h1 h2 hh1 hh2
  exact ⟨by rw [h], h⟩

theorem claimC8_witness :
    loopCond (runLoop 5 (initState (parse 20 emptyProgToks).code [])) = false ∧
    loopCond (runLoop 7 (initState (parse 20 emptyProgToks).code [])) = false ∧
    (runLoop 5 (initState (parse 20 emptyProgToks).code [])).output =
      (runLoop 7 (initState (parse 20 emptyProgToks).code [])).output :=
  ⟨by decide, by decide,
    (claimC8 20 emptyProgToks []
      (runLoop 5 (initState (parse 20 emptyProgToks).code []))
      (runLoop 7 (initState (parse 20 emptyProgToks).code []))
      (reaches_runLoop 5 _) (reaches_runLoop 7 _) (by decide) (by decide)).1⟩

/-- C9: when the diagnostic renderer displays a source line, each tab
renders as four spaces (other characters as themselves), and the caret
column computed for the first `k` source characters equals the rendered
width of those `k` characters, so the caret printed after that many
spaces aligns with the highlighted token; the caret row is spaces up to
that column, then the caret. -/
theorem claimC9 (cs : List Char) (k : Nat) (len : Int) (h : k ≤ cs.length) :
    (∀ rest, renderSourceLine (Char.ofNat 9 :: rest) =
      [Char.ofNat 32, Char.ofNat 32, Char.ofNat 32, Char.ofNat 32] ++ renderSourceLine rest) ∧
    (∀ c rest, c ≠ Char.ofNat 9 → renderSourceLine (c :: rest) = c :: renderSourceLine rest) ∧
    visualColumnAux cs k = (renderSourceLine (cs.take k)).length ∧
    (caretRow (visualColumnAux cs k) len).get? (visualColumnAux cs k) = some (Char.ofNat 94) ∧
    (∀ j, j < visualColumnAux cs k →
      (caretRow (visualColumnAux cs k) len).get? j = some (Char.ofNat 32)) := by
  refine ⟨?_, ?_, ?_, ?_, ?_⟩
  · intro rest
    simp [renderSourceLine]
  · intro c rest hc
    simp [renderSourceLine, hc]
  · clear len
    induction cs generalizing k with
    | nil =>
      have hk : k = 0 := Nat.le_zero.mp h
      subst hk
      rfl
    | cons c rest ih =>
      cases k with
      | zero => rfl
      | succ k =>
        have hk : k ≤ rest.length := Nat.succ_le_succ_iff.mp h
        have ih2 := ih k hk
        by_cases hc : c = Char.ofNat 9
        · simp [visualColumnAux, renderSourceLine, hc, ih2]
          omega
        · simp [visualColumnAux, renderSourceLine, hc, ih2]
          omega
  · unfold caretRow
    rw [List.append_assoc, List.get?_append_right (by simp)]
    simp
  · intro j hj
    unfold caretRow
    rw [List.get?_append (by simp; omega), List.get?_append (by simpa using hj)]
    simp [hj]

theorem claimC9_witness :
    2 ≤ ("\tab".data).length ∧
    (visualColumnAux ("\tab".data) 2 = (renderSourceLine (("\tab".data).take 2)).length ∧
      visualColumnAux ("\tab".data) 2 = 5) :=
  ⟨by decide, ⟨(claimC9 ("\tab".data) 2 1 (by decide)).2.2.1, by decide⟩⟩

theorem advanceP_code (s : PState) : (advanceP s).code = s.code := by
  unfold advanceP
  split
  · rfl
  · split <;> rfl

/-- C1 (amended): for a call statement `call id(e1, ..., en)` naming a
declared procedure, the parser emits the `CAL` instruction first — it is
the first instruction appended by the call-statement routine — and the
instructions that evaluate the argument expressions follow it in the
emitted instruction vector; the `call` branch of `parseStatement`
dispatches to that routine after consuming the `call` keyword. -/
theorem claimC1_amended (n : Nat) (s : PState) (sym : Symbol)
    (hexn : s.exn = false)
    (hid : check s TokenType.IDENTIFIER = true)
    (hlk : s.table.lookup (currentToken s).value = some sym)
    (hty : sym.type = SymbolType.PROCEDURE) :
    (∃ tail, (parseCallStmt (Nat.succ n) s).code =
      (s.code ++ [⟨OpCode.CAL, s.table.getCurrentLevel - sym.level, sym.address⟩]) ++ tail) ∧
    (∀ u : PState, u.exn = false → (currentToken u).type = TokenType.CALL →
      parseStatement (Nat.succ n) u = parseCallStmt n (advanceP u)) := by
  constructor
  · have h1 : parseCallTarget s =
        advanceP (emit s OpCode.CAL (s.table.getCurrentLevel - sym.level) sym.address).2 := by
      unfold parseCallTarget
      rw [if_pos hid, hlk]
      simp [hty]
    have hcode1 : (parseCallTarget s).code =
        s.code ++ [⟨OpCode.CAL, s.table.getCurrentLevel - sym.level, sym.address⟩] := by
      rw [h1, advanceP_code, emit_code s _ _ _ hexn]
    set s2 := expect n (parseCallTarget s) TokenType.LPAREN with hs2
    have g2 : Good (parseCallTarget s) s2 := good_expect n _ _
    have g3 : Good (parseCallTarget s)
        (if check s2 TokenType.RPAREN then s2 else parseCallArgs n s2) := by
      by_cases hc : check s2 TokenType.RPAREN = true
      · rw [if_pos hc]; exact g2
      · rw [if_neg hc]
        exact good_trans g2 ((goodAll n).2.2.2.2.2.2.2.2.2.2.2.2.2.1 s2)
    have hdef : parseCallStmt (Nat.succ n) s =
        expect n (if check s2 TokenType.RPAREN then s2 else parseCallArgs n s2)
          TokenType.RPAREN := by
      simp only [parseCallStmt]
    have g4 : Good (parseCallTarget s) (parseCallStmt (Nat.succ n) s) := by
      rw [hdef]
      exact good_expect_step g3
    obtain ⟨tail, htail⟩ := ext_prefix g4.1
    exact ⟨tail, by rw [htail, hcode1]⟩
  · intro u hu hcu
    have hidf : check u TokenType.IDENTIFIER = false := by simp [check, hcu]
    have hIf : matchTok u TokenType.IF = (false, u) := by
      simp [matchTok, check, hcu, hu]
    have hWh : matchTok u TokenType.WHILE = (false, u) := by
      simp [matchTok, check, hcu, hu]
    have hCa : matchTok u TokenType.CALL = (true, advanceP u) := by
      simp [matchTok, check, hcu, hu]
    simp [parseStatement, hu, hidf, hIf, hWh, hCa]

theorem claimC1_amended_witness :
    c1State.exn = false ∧
    check c1State TokenType.IDENTIFIER = true ∧
    c1State.table.lookup (currentToken c1State).value =
      some ⟨"q", SymbolType.PROCEDURE, 0, 1⟩ ∧
    ((∃ tail, (parseCallStmt 9 c1State).code =
        (c1State.code ++
          [⟨OpCode.CAL, c1State.table.getCurrentLevel - 0, 1⟩]) ++ tail) ∧
      (∀ u : PState, u.exn = false → (currentToken u).type = TokenType.CALL →
        parseStatement 9 u = parseCallStmt 8 (advanceP u))) :=
  ⟨by decide, by decide, by decide,
    claimC1_amended 8 c1State ⟨"q", SymbolType.PROCEDURE, 0, 1⟩
      (by decide) (by decide) (by decide) (by decide)⟩

theorem relopCode_cases {ty : TokenType} {c : Int} (h : relopCode ty = some c) :
    (ty = TokenType.EQ ∧ c = 8) ∨ (ty = TokenType.NEQ ∧ c = 9) ∨
    (ty = TokenType.LT ∧ c = 10) ∨ (ty = TokenType.LEQ ∧ c = 13) ∨
    (ty = TokenType.GT ∧ c = 12) ∨ (ty = TokenType.GEQ ∧ c = 11) := by
  cases ty <;>
    simp [relopCode, OprType.EQ, OprType.NEQ, OprType.LT, OprType.LEQ,
      OprType.GT, OprType.GEQ] at h <;>
    simp [h]

/-- C6: compiling `e1 relop e2` emits, right after the code for `e2`, an
`OPR` whose sub-operation code is 8, 9, 10, 13, 12, 11 for `=`, `<>`, `<`,
`<=`, `>`, `>=` respectively (the value `relopCode` assigns), and the VM's
execution of such an `OPR` decrements T (pops two, pushes one), stores 1
at the new top when the comparison of the left operand against the right
operand holds and 0 otherwise, and leaves every other stack cell
unchanged. -/
theorem claimC6 (n : Nat) (s : PState) (c : Int)
    (hexn : s.exn = false)
    (hodd : check s TokenType.ODD = false)
    (hrel : relopCode (currentToken (parseExp n s)).type = some c)
    (hexn2 : (parseExp n (advanceP (parseExp n s))).exn = false) :
    (parseLexp (Nat.succ n) s).code =
      (parseExp n (advanceP (parseExp n s))).code ++ [⟨OpCode.OPR, 0, c⟩] ∧
    (∀ v : VMState, v.I.op = OpCode.OPR → v.I.address = c →
      (executeOPR v).T = v.T - 1 ∧
      (executeOPR v).stack (v.T - 1) =
        (if relopHolds c (v.stack (v.T - 1)) (v.stack v.T) = true then 1 else 0) ∧
      (∀ j, j ≠ v.T - 1 → (executeOPR v).stack j = v.stack j) ∧
      dispatch v = executeOPR v) := by
  have hm : matchTok s TokenType.ODD = (false, s) := by
    simp [matchTok, hodd]
  have hlexp : parseLexp (Nat.succ n) s =
      (if check (parseExp n s) TokenType.EQ || check (parseExp n s) TokenType.NEQ ||
          check (parseExp n s) TokenType.LT || check (parseExp n s) TokenType.LEQ ||
          check (parseExp n s) TokenType.GT || check (parseExp n s) TokenType.GEQ then
        emitRelOpr (currentToken (parseExp n s)).type (parseExp n (advanceP (parseExp n s)))
      else reportErrorP (parseExp n s)) := by
    simp only [parseLexp, hexn, hm, Bool.false_eq_true, if_false]
  rcases relopCode_cases hrel with ⟨hty, hc⟩ | ⟨hty, hc⟩ | ⟨hty, hc⟩ | ⟨hty, hc⟩ |
    ⟨hty, hc⟩ | ⟨hty, hc⟩ <;> subst hc <;> constructor
  · have hcond : (check (parseExp n s) TokenType.EQ || check (parseExp n s) TokenType.NEQ ||
        check (parseExp n s) TokenType.LT || check (parseExp n s) TokenType.LEQ ||
        check (parseExp n s) TokenType.GT || check (parseExp n s) TokenType.GEQ) = true := by
      simp [check, hty]
    rw [hlexp, if_pos hcond, hty]
    simp only [emitRelOpr]
    rw [emit_code _ _ _ _ hexn2]
    rfl
  · intro v hop hca
    refine ⟨by rw [executeOPR_eq v hca], ?_, ?_, dispatch_OPR v hop⟩
    · rw [executeOPR_eq v hca]
      simp [upd, relopHolds]
    · intro j hj
      rw [executeOPR_eq v hca]
      simp [upd, hj]
  · have hcond : (check (parseExp n s) TokenType.EQ || check (parseExp n s) TokenType.NEQ ||
        check (parseExp n s) TokenType.LT || check (parseExp n s) TokenType.LEQ ||
        check (parseExp n s) TokenType.GT || check (parseExp n s) TokenType.GEQ) = true := by
      simp [check, hty]
    rw [hlexp, if_pos hcond, hty]
    simp only [emitRelOpr]
    rw [emit_code _ _ _ _ hexn2]
    rfl
  · intro v hop hca
    refine ⟨by rw [executeOPR_neq v hca], ?_, ?_, dispatch_OPR v hop⟩
    · rw [executeOPR_neq v hca]
      simp [upd, relopHolds]
    · intro j hj
      rw [executeOPR_neq v hca]
      simp [upd, hj]
  · have hcond : (check (parseExp n s) TokenType.EQ || check (parseExp n s) TokenType.NEQ ||
        check (parseExp n s) TokenType.LT || check (parseExp n s) TokenType.LEQ ||
        check (parseExp n s) TokenType.GT || check (parseExp n s) TokenType.GEQ) = true := by
      simp [check, hty]
    rw [hlexp, if_pos hcond, hty]
    simp only [emitRelOpr]
    rw [emit_code _ _ _ _ hexn2]
    rfl
  · intro v hop hca
    refine ⟨by rw [executeOPR_lt v hca], ?_, ?_, dispatch_OPR v hop⟩
    · rw [executeOPR_lt v hca]
      simp [upd, relopHolds]
    · intro j hj
      rw [executeOPR_lt v hca]
      simp [upd, hj]
  · have hcond : (check (parseExp n s) TokenType.EQ || check (parseExp n s) TokenType.NEQ ||
        check (parseExp n s) TokenType.LT || check (parseExp n s) TokenType.LEQ ||
        check (parseExp n s) TokenType.GT || check (parseExp n s) TokenType.GEQ) = true := by
      simp [check, hty]
    rw [hlexp, if_pos hcond, hty]
    simp only [emitRelOpr]
    rw [emit_code _ _ _ _ hexn2]
    rfl
  · intro v hop hca
    refine ⟨by rw [executeOPR_leq v hca], ?_, ?_, dispatch_OPR v hop⟩
    · rw [executeOPR_leq v hca]
      simp [upd, relopHolds]
    · intro j hj
      rw [executeOPR_leq v hca]
      simp [upd, hj]
  · have hcond : (check (parseExp n s) TokenType.EQ || check (parseExp n s) TokenType.NEQ ||
        check (parseExp n s) TokenType.LT || check (parseExp n s) TokenType.LEQ ||
        check (parseExp n s) TokenType.GT || check (parseExp n s) TokenType.GEQ) = true := by
      simp [check, hty]
    rw [hlexp, if_pos hcond, hty]
    simp only [emitRelOpr]
    rw [emit_code _ _ _ _ hexn2]
    rfl
  · intro v hop hca
    refine ⟨by rw [executeOPR_gt v hca], ?_, ?_, dispatch_OPR v hop⟩
    · rw [executeOPR_gt v hca]
      simp [upd, relopHolds]
    · intro j hj
      rw [executeOPR_gt v hca]
      simp [upd, hj]
  · have hcond : (check (parseExp n s) TokenType.EQ || check (parseExp n s) TokenType.NEQ ||
        check (parseExp n s) TokenType.LT || check (parseExp n s) TokenType.LEQ ||
        check (parseExp n s) TokenType.GT || check (parseExp n s) TokenType.GEQ) = true := by
      simp [check, hty]
    rw [hlexp, if_pos hcond, hty]
    simp only [emitRelOpr]
    rw [emit_code _ _ _ _ hexn2]
    rfl
  · intro v hop hca
    refine ⟨by rw [executeOPR_geq v hca], ?_, ?_, dispatch_OPR v hop⟩
    · rw [executeOPR_geq v hca]
      simp [upd, relopHolds]
    · intro j hj
      rw [executeOPR_geq v hca]
      simp [upd, hj]

theorem claimC6_witness :
    relopCode (currentToken (parseExp 5 (initPState c6Toks))).type = some 10 ∧
    ((parseLexp 6 (initPState c6Toks)).code =
      (parseExp 5 (advanceP (parseExp 5 (initPState c6Toks)))).code ++
        [⟨OpCode.OPR, 0, 10⟩] ∧
    (∀ v : VMState, v.I.op = OpCode.OPR → v.I.address = 10 →
      (executeOPR v).T = v.T - 1 ∧
      (executeOPR v).stack (v.T - 1) =
        (if relopHolds 10 (v.stack (v.T - 1)) (v.stack v.T) = true then 1 else 0) ∧
      (∀ j, j ≠ v.T - 1 → (executeOPR v).stack j = v.stack j) ∧
      dispatch v = executeOPR v)) :=
  ⟨by decide,
    claimC6 5 (initPState c6Toks) 10 (by decide) (by decide) (by decide) (by decide)⟩

theorem good_parseProgram (n : Nat) (s : PState) : Good s (parseProgram n s) := by
  unfold parseProgram
  dsimp only
  repeat
    first
    | exact good_refl _
    | apply good_expect_step
    | apply good_step ((goodAll n).1)
    | apply good_step good_advanceP
    | apply good_emit_step
    | apply good_step good_reportErrorP
    | split

/-- C7 (amended): after any sequence of parser actions starting from the
fresh parser state, every scope of the symbol table satisfies the density
part of the claim — the addresses of the variables (and parameters, which
are declared as variables) of one scope are exactly 3, 4, … in declaration
order, dense, starting at 3 and strictly increasing, with the scope's
address counter the next free offset (`TableInv`); the uniqueness part of
the claim is dropped, since duplicate parameter names are accepted. -/
theorem claimC7_amended :
    (∀ toks, TableInv (initPState toks).table) ∧
    (∀ n toks, TableInv (parse n toks).table) ∧
    (∀ (n : Nat) (s : PState), TableInv s.table → TableInv (parseProgram n s).table) ∧
    (∀ (n : Nat) (s : PState), TableInv s.table → TableInv (parseBlock n s).table) ∧
    (∀ (n : Nat) (s : PState), TableInv s.table → TableInv (parseProc n s).table) ∧
    (∀ (n : Nat) (s : PState), TableInv s.table → TableInv (parseStatement n s).table) ∧
    (∀ (n : Nat) (s : PState), TableInv s.table → TableInv (parseCondecl n s).table) ∧
    (∀ (n : Nat) (s : PState), TableInv s.table → TableInv (parseVardecl n s).table) ∧
    (∀ (n : Nat) (s : PState), TableInv s.table → TableInv (parseParams n s).table) := by
  have hinit : ∀ toks, TableInv (initPState toks).table := by
    intro toks
    exact (by decide : TableInv SymbolTable.initial)
  refine ⟨hinit, ?_, ?_, ?_, ?_, ?_, ?_, ?_, ?_⟩
  · intro n toks
    exact (good_parseProgram n (initPState toks)).2.2 (hinit toks)
  · intro n s h
    exact (good_parseProgram n s).2.2 h
  · intro n s h
    exact ((goodAll n).1 s).2.2 h
  · intro n s h
    exact ((goodAll n).2.2.1 s).2.2 h
  · intro n s h
    exact ((goodAll n).2.2.2.2.2.2.2.2.2.2.2.2.1 s).2.2 h
  · intro n s h
    exact (good_parseCondecl n s).2.2 h
  · intro n s h
    exact (good_parseVardecl n s).2.2 h
  · intro n s h
    exact (good_parseParams n s).2.2 h

theorem claimC7_amended_witness :
    TableInv (initPState dupParamToks).table ∧
    TableInv (parse 50 dupParamToks).table ∧
    TableInv (parseParams 30 (initPState dupParamToks)).table :=
  ⟨claimC7_amended.1 dupParamToks,
   claimC7_amended.2.1 50 dupParamToks,
   claimC7_amended.2.2.2.2.2.2.2.2 30 (initPState dupParamToks) (by decide)⟩

theorem reportErrorP_code (s : PState) : (reportErrorP s).code = s.code := by
  unfold reportErrorP; split_ifs <;> rfl

theorem synchronize_code : ∀ (n : Nat) (s : PState), (synchronize n s).code = s.code
  | 0, _ => rfl
  | Nat.succ n, s => by
    unfold synchronize
    split_ifs <;>
      first
        | rfl
        | exact advanceP_code s
        | exact (synchronize_code n (advanceP s)).trans (advanceP_code s)

theorem expect_code (n : Nat) (s : PState) (ty : TokenType) : (expect n s ty).code = s.code := by
  unfold expect
  split_ifs <;>
    first
      | rfl
      | exact advanceP_code s
      | exact (synchronize_code n (reportErrorP s)).trans (reportErrorP_code s)

theorem backpatchP_code_nat (s : PState) (k : Nat) (addr : Int) (old : Instruction)
    (hexn : s.exn = false) (hlt : k < s.code.length) (hget : s.code.get? k = some old) :
    (backpatchP s (k : Int) addr).code = s.code.set k ⟨old.op, old.level, addr⟩ := by
  unfold backpatchP
  rw [if_neg (by simp [hexn])]
  rw [if_pos ⟨Int.natCast_nonneg k, by simpa using hlt⟩]
  simp only [Int.toNat_natCast]
  rw [hget]

theorem parseBlock_decomp (n : Nat) (s : PState) (hexn : s.exn = false) :
    parseBlock (Nat.succ n) s =
      parseBody n ((emit
        (backpatchP (blockDecls n (emit s OpCode.JMP 0 0).2)
          (emit s OpCode.JMP 0 0).1
          (getNextAddressP (blockDecls n (emit s OpCode.JMP 0 0).2)))
        OpCode.INT 0
        (backpatchP (blockDecls n (emit s OpCode.JMP 0 0).2)
          (emit s OpCode.JMP 0 0).1
          (getNextAddressP (blockDecls n (emit s OpCode.JMP 0 0).2))).table.getCurrentAddress).2) := by
  simp only [parseBlock, blockDecls, hexn, Bool.false_eq_true, if_false]

theorem good_blockDecls (n : Nat) (s1 : PState) : Good s1 (blockDecls n s1) := by
  unfold blockDecls
  dsimp only
  apply good_step ((goodAll n).2.1)
  set X := if check s1 TokenType.CONST then parseCondecl n s1 else s1 with hX
  have g2 : Good s1 X := by
    rw [hX]
    split
    · exact good_parseCondecl n s1
    · exact good_refl s1
  split
  · exact good_trans g2 (good_parseVardecl n X)
  · exact g2

theorem programPrefix_code (n : Nat) (toks : List Token) :
    (programPrefix n toks).code = [] := by
  unfold programPrefix
  rw [expect_code]
  split
  · rw [advanceP_code, expect_code]
    rfl
  · rw [reportErrorP_code, expect_code]
    rfl

theorem programPrefix_exn (n : Nat) (toks : List Token) :
    (programPrefix n toks).exn = false := by
  unfold programPrefix
  rw [expect_exn]
  split
  · rw [advanceP_exn, expect_exn]
    rfl
  · rw [reportErrorP_exn, expect_exn]
    rfl

theorem programPrefix_table (n : Nat) (toks : List Token) :
    (programPrefix n toks).table = SymbolTable.initial := by
  unfold programPrefix
  rw [expect_table]
  split
  · rw [advanceP_table, expect_table]
    rfl
  · rw [reportErrorP_table, expect_table]
    rfl

theorem parseProgram_decomp (n : Nat) (toks : List Token) :
    parse n toks =
      (if check ((emit (parseBlock n (programPrefix n toks))
            OpCode.OPR 0 OprType.RET).2) TokenType.END_OF_FILE then
         (emit (parseBlock n (programPrefix n toks)) OpCode.OPR 0 OprType.RET).2
       else reportErrorP ((emit (parseBlock n (programPrefix n toks))
            OpCode.OPR 0 OprType.RET).2)) := by
  unfold parse parseProgram programPrefix
  rw [if_neg (by simp [initPState])]

/-- C5: for every parsed block (with the declaration phase free of the
`std::stoi` exception), the first instruction emitted for the block is a
`JMP` whose target is backpatched to the index of the `INT` emitted right
after the declarations and nested procedures, and that `INT`'s operand is
3 plus the number of variables and parameters declared in the block's
scope (the length of `varAddresses` of the current scope); in particular
instruction 0 of every parsed program is such a backpatched `JMP`,
jumping past the nested procedure bodies. -/
theorem claimC5 (n : Nat) (s : PState)
    (hexn : s.exn = false) (hinv : TableInv s.table) (hne : s.table.scopes ≠ [])
    (hd : (blockDecls n (emit s OpCode.JMP 0 0).2).exn = false) :
    ((parseBlock (Nat.succ n) s).code.get? s.code.length =
      some ⟨OpCode.JMP, 0, ((blockDecls n (emit s OpCode.JMP 0 0).2).code.length : Int)⟩ ∧
     (parseBlock (Nat.succ n) s).code.get?
        (blockDecls n (emit s OpCode.JMP 0 0).2).code.length =
      some ⟨OpCode.INT, 0, 3 +
        ((varAddresses
          ((blockDecls n (emit s OpCode.JMP 0 0).2).table.scopes.headI)).length : Int)⟩ ∧
     s.code.length < (blockDecls n (emit s OpCode.JMP 0 0).2).code.length) ∧
    (∀ toks,
      (blockDecls n (emit (programPrefix (Nat.succ n) toks) OpCode.JMP 0 0).2).exn = false →
      (parse (Nat.succ n) toks).code.get? 0 =
        some ⟨OpCode.JMP, 0,
          ((blockDecls n
            (emit (programPrefix (Nat.succ n) toks) OpCode.JMP 0 0).2).code.length : Int)⟩) := by
  have key : ∀ (u : PState), u.exn = false → TableInv u.table → u.table.scopes ≠ [] →
      (blockDecls n (emit u OpCode.JMP 0 0).2).exn = false →
      ((parseBlock (Nat.succ n) u).code.get? u.code.length =
        some ⟨OpCode.JMP, 0, ((blockDecls n (emit u OpCode.JMP 0 0).2).code.length : Int)⟩ ∧
       (parseBlock (Nat.succ n) u).code.get?
          (blockDecls n (emit u OpCode.JMP 0 0).2).code.length =
        some ⟨OpCode.INT, 0, 3 +
          ((varAddresses
            ((blockDecls n (emit u OpCode.JMP 0 0).2).table.scopes.headI)).length : Int)⟩ ∧
       u.code.length < (blockDecls n (emit u OpCode.JMP 0 0).2).code.length) := by
    intro u hu hinvu hneu hdu
    rw [parseBlock_decomp n u hu]
    have hjfst : (emit u OpCode.JMP 0 0).1 = (u.code.length : Int) := emit_fst u _ _ _ hu
    set s1 := (emit u OpCode.JMP 0 0).2 with hs1
    have hs1code : s1.code = u.code ++ [⟨OpCode.JMP, 0, 0⟩] := emit_code u _ _ _ hu
    set s4 := blockDecls n s1 with hs4
    have g14 : Good s1 s4 := good_blockDecls n s1
    have g04 : Good u s4 := good_trans (good_emit u OpCode.JMP 0 0) g14
    have hinv4 : TableInv s4.table := g04.2.2 hinvu
    obtain ⟨-, hslen, halen⟩ := g04.2.1 hdu
    have hlen1 : s1.code.length = u.code.length + 1 := by rw [hs1code]; simp
    have hlt14 : u.code.length < s4.code.length := by
      have := g14.1.1; omega
    have hjget : s4.code.get? u.code.length = some ⟨OpCode.JMP, 0, 0⟩ := by
      rw [g14.1.2 u.code.length (by omega), hs1code]
      exact List.get?_concat_length u.code ⟨OpCode.JMP, 0, 0⟩
    rcases hsc : s4.table.scopes with - | ⟨sc, srest⟩
    · rw [hsc] at hslen
      exact absurd (List.length_eq_zero.mp (by simpa using hslen.symm)) hneu
    rcases hast : s4.table.addressStack with - | ⟨a, arest⟩
    · exfalso
      have hp := hinv4.1
      rw [hsc, hast] at hp
      simp at hp
    have hok : ScopeOk sc a := by
      apply hinv4.2 (sc, a)
      rw [hsc, hast, List.zip_cons_cons]
      exact List.mem_cons_self _ _
    have hcura : s4.table.getCurrentAddress = a := by
      simp [SymbolTable.getCurrentAddress, hast]
    have hheadI : s4.table.scopes.headI = sc := by rw [hsc]; rfl
    set s5 := backpatchP s4 (emit u OpCode.JMP 0 0).1 (getNextAddressP s4) with hs5
    have hs5code : s5.code = s4.code.set u.code.length ⟨OpCode.JMP, 0, getNextAddressP s4⟩ := by
      rw [hs5, hjfst]
      exact backpatchP_code_nat s4 u.code.length (getNextAddressP s4) ⟨OpCode.JMP, 0, 0⟩
        hdu hlt14 hjget
    have hs5exn : s5.exn = false := by rw [hs5, backpatchP_exn]; exact hdu
    have hs5table : s5.table = s4.table := by rw [hs5]; exact backpatchP_table _ _ _
    have hlen5 : s5.code.length = s4.code.length := by rw [hs5code]; simp
    set s6 := (emit s5 OpCode.INT 0 s5.table.getCurrentAddress).2 with hs6
    have hs6code : s6.code = s5.code ++ [⟨OpCode.INT, 0, s5.table.getCurrentAddress⟩] :=
      emit_code s5 _ _ _ hs5exn
    have hlen6 : s6.code.length = s4.code.length + 1 := by rw [hs6code]; simp [hlen5]
    have gfin : Good s6 (parseBody n s6) := (goodAll n).2.2.2.1 s6
    refine ⟨?_, ?_, hlt14⟩
    · rw [gfin.1.2 u.code.length (by omega)]
      rw [hs6code, List.get?_append (by omega), hs5code]
      rw [List.get?_eq_getElem?]
      rw [List.getElem?_set_eq_of_lt _ hlt14]
      rfl
    · rw [gfin.1.2 s4.code.length (by omega)]
      rw [hs6code, ← hlen5, List.get?_concat_length]
      rw [hs5table, hcura, hok.1]
      rfl
  constructor
  · exact key s hexn hinv hne hd
  · intro toks hdk
    have hpe := programPrefix_exn (Nat.succ n) toks
    have hpt := programPrefix_table (Nat.succ n) toks
    have hpc := programPrefix_code (Nat.succ n) toks
    have h1 := key (programPrefix (Nat.succ n) toks) hpe
      (by rw [hpt]; exact (by decide : TableInv SymbolTable.initial))
      (by rw [hpt]; exact (by decide : SymbolTable.initial.scopes ≠ []))
      hdk
    have h11 := h1.1
    rw [hpc] at h11
    simp only [List.length_nil] at h11
    obtain ⟨hlt0, -⟩ := List.get?_eq_some.mp h11
    rw [parseProgram_decomp]
    split
    · rw [(good_emit _ OpCode.OPR 0 OprType.RET).1.2 0 hlt0]
      exact h11
    · rw [reportErrorP_code, (good_emit _ OpCode.OPR 0 OprType.RET).1.2 0 hlt0]
      exact h11

theorem claimC5_witness :
    (blockDecls 12 (emit (programPrefix 13 c5Toks) OpCode.JMP 0 0).2).exn = false ∧
    (parse 13 c5Toks).code.get? 0 =
      some ⟨OpCode.JMP, 0,
        ((blockDecls 12 (emit (programPrefix 13 c5Toks) OpCode.JMP 0 0).2).code.length : Int)⟩ :=
  ⟨by decide,
    (claimC5 12 (initPState c5Toks) (by decide) (by decide) (by decide) (by decide)).2
      c5Toks (by decide)⟩

end PL0
